import Mathlib

/-!
Verification of the facemap pose pipeline (`facemap/pose/pose.py`).

The development shallowly embeds the `Pose` class: pure geometry is embedded
over `ℚ`, stateful methods as explicit state-passing functions returning
`Except` where the Python can raise, and external effects (frame decoding,
the neural network, wall-clock time) as oracle parameters.

Coordinates and sizes are rational numbers: the Python code computes with
IEEE floats, but every geometric step here is ±, ×, ÷ by exactly
representable quantities, so the rational model is the float computation up
to floating-point rounding, which the spec's round-trip law explicitly
tolerates.
-/

namespace Facemap

/-! ## Geometric transform (spec §4.1)

`transforms.preprocess_img` and `transforms.adjust_keypoints` are imported
by `pose.py` but their module is not part of the sources under
verification, so the geometry is modelled from the spec.  Shapes, offsets
and points are pairs ordered (x-axis component, y-axis component), aligned
with keypoint coordinates. -/

/-- Bounding box in raw-frame coordinates, invariant `x2 > x1`, `y2 > y1`
(spec §3 BoundingBox). -/
structure BboxQ where
  x1 : ℚ
  x2 : ℚ
  y1 : ℚ
  y2 : ℚ
  deriving DecidableEq

/-- Width and height of the cropped region selected by a bounding box. -/
def cropSize (b : BboxQ) : ℚ × ℚ :=
  (b.x2 - b.x1, b.y2 - b.y1)

/-- Modelled from the spec: `preprocess_img`'s pad offsets (§4.1).  "If the
cropped region is non-square and `addPadding` is set, pads symmetrically to
square, recording the pad amount per axis."  The leading pad added on each
axis is half the difference to the square side. -/
def padOffsets (b : BboxQ) (addPadding : Bool) : ℚ × ℚ :=
  let w := (cropSize b).1
  let h := (cropSize b).2
  if addPadding = true ∧ w ≠ h then
    let s := max w h
    ((s - w) / 2, (s - h) / 2)
  else
    (0, 0)

/-- Modelled from the spec: `preprocess_img`'s `postpad_shape` (§4.1), "the
crop+pad shape prior to the final resize".  Each axis grows by the leading
and trailing pad, i.e. twice the symmetric offset. -/
def postpadShape (b : BboxQ) (addPadding : Bool) : ℚ × ℚ :=
  let w := (cropSize b).1
  let h := (cropSize b).2
  let p := padOffsets b addPadding
  (w + 2 * p.1, h + 2 * p.2)

/-- Modelled from the spec: the forward coordinate map of
`preprocess_img` (§4.1 `normalize`): crop to the bbox (subtract the crop
origin), pad (add the pad offsets), and, "if the (possibly padded) region's
side length differs from the model's fixed input size (256) and `resize` is
set", rescale each axis to 256. -/
def normalizePoint (b : BboxQ) (addPadding resize : Bool) (p : ℚ × ℚ) : ℚ × ℚ :=
  let pd := padOffsets b addPadding
  let c := (p.1 - b.x1 + pd.1, p.2 - b.y1 + pd.2)
  let pp := postpadShape b addPadding
  if resize = true ∧ pp ≠ (256, 256) then
    (c.1 * (256 / pp.1), c.2 * (256 / pp.2))
  else
    c

/-- Modelled from the spec: `transforms.adjust_keypoints` on a single
point (§4.1 `denormalize`): "undo resize scale factor
(targetShape/modelInputSize elementwise), subtract pad offsets, add crop
origin."  The argument names follow the keyword arguments of the call in
`predict_landmarks` (pose.py:325-332). -/
def adjust_keypoints (p crop_xy padding current_size desired_size : ℚ × ℚ) : ℚ × ℚ :=
  (p.1 * (desired_size.1 / current_size.1) - padding.1 + crop_xy.1,
   p.2 * (desired_size.2 / current_size.2) - padding.2 + crop_xy.2)

/-- The inverse transform exactly as `predict_landmarks` wires it
(pose.py:325-332): `crop_xy = (x1, y1)` from the video's bbox,
`padding = pads` and `desired_size = postpad_shape` from `preprocess_img`,
`current_size = (256, 256)`. -/
def predictionToRaw (b : BboxQ) (addPadding : Bool) (p : ℚ × ℚ) : ℚ × ℚ :=
  adjust_keypoints p (b.x1, b.y1) (padOffsets b addPadding) (256, 256)
    (postpadShape b addPadding)

theorem cropSize_pos_of_lt {b : BboxQ} (hx : b.x1 < b.x2) (hy : b.y1 < b.y2) :
    0 < (cropSize b).1 ∧ 0 < (cropSize b).2 := by
  constructor <;> simp [cropSize] <;> linarith

theorem padOffsets_nonneg (b : BboxQ) (ap : Bool) :
    0 ≤ (padOffsets b ap).1 ∧ 0 ≤ (padOffsets b ap).2 := by
  simp only [padOffsets]
  split
  · constructor
    · have := le_max_left (cropSize b).1 (cropSize b).2
      simp only
      linarith
    · have := le_max_right (cropSize b).1 (cropSize b).2
      simp only
      linarith
  · simp

theorem postpadShape_pos {b : BboxQ} (hx : b.x1 < b.x2) (hy : b.y1 < b.y2)
    (ap : Bool) : 0 < (postpadShape b ap).1 ∧ 0 < (postpadShape b ap).2 := by
  obtain ⟨hw, hh⟩ := cropSize_pos_of_lt hx hy
  obtain ⟨hp1, hp2⟩ := padOffsets_nonneg b ap
  constructor <;> simp only [postpadShape] <;> linarith

/-- C1 (amended): for every bbox with positive extent, every `addPadding`
flag, and every `resize` flag that is either set or whose post-pad shape is
already 256×256, applying `adjust_keypoints` with exactly the arguments
`predict_landmarks` wires in (`crop_xy = (x1, y1)`, `padding` and
`desired_size` from the forward `preprocess_img`, `current_size =
(256, 256)`) inverts the forward normalization on every point inside the
bbox. -/
theorem adjust_keypoints_inverts_normalize (b : BboxQ) (ap rz : Bool)
    (p : ℚ × ℚ) (hx : b.x1 < b.x2) (hy : b.y1 < b.y2)
    (hp1 : b.x1 ≤ p.1) (hp2 : p.1 ≤ b.x2) (hp3 : b.y1 ≤ p.2) (hp4 : p.2 ≤ b.y2)
    (hres : rz = true ∨ postpadShape b ap = (256, 256)) :
    predictionToRaw b ap (normalizePoint b ap rz p) = p := by
  obtain ⟨hw, hh⟩ := postpadShape_pos hx hy ap
  obtain ⟨px, py⟩ := p
  by_cases hc : rz = true ∧ postpadShape b ap ≠ (256, 256)
  · have h1 : (postpadShape b ap).1 ≠ 0 := ne_of_gt hw
    have h2 : (postpadShape b ap).2 ≠ 0 := ne_of_gt hh
    simp only [predictionToRaw, adjust_keypoints, normalizePoint, if_pos hc,
      Prod.mk.injEq]
    constructor <;> · field_simp
  · have hpp : postpadShape b ap = (256, 256) := by
      rcases hres with h | h
      · push_neg at hc
        exact hc h
      · exact h
    simp only [predictionToRaw, adjust_keypoints, normalizePoint, if_neg hc,
      hpp, Prod.mk.injEq]
    norm_num

/-- C1 counterexample: with `resize` unset and a 100×100 bbox (post-pad
shape 100×100 ≠ 256×256), the inverse transform as wired in
`predict_landmarks` does not recover the point (10, 10) even though it lies
inside the bbox: the forward map leaves the point at (10, 10) but the
inverse still multiplies by 100/256, yielding (125/32, 125/32). -/
theorem adjust_keypoints_roundtrip_fails_unresized :
    ((0:ℚ) ≤ 10 ∧ (10:ℚ) ≤ 100) ∧
    normalizePoint ⟨0, 100, 0, 100⟩ false false (10, 10) = (10, 10) ∧
    predictionToRaw ⟨0, 100, 0, 100⟩ false
      (normalizePoint ⟨0, 100, 0, 100⟩ false false (10, 10)) ≠ (10, 10) := by
  refine ⟨by norm_num, ?_, ?_⟩ <;>
    norm_num [normalizePoint, predictionToRaw, adjust_keypoints, padOffsets,
      postpadShape, cropSize, Prod.ext_iff]

/-- Witness for `adjust_keypoints_inverts_normalize` at a concrete
non-square, non-256 bbox with both flags set. -/
theorem adjust_keypoints_inverts_normalize_witness :
    ((0:ℚ) < 100 ∧ (0:ℚ) < 50 ∧ (0:ℚ) ≤ 10 ∧ (10:ℚ) ≤ 100 ∧ (0:ℚ) ≤ 20 ∧
      (20:ℚ) ≤ 50) ∧
    predictionToRaw ⟨0, 100, 0, 50⟩ true
      (normalizePoint ⟨0, 100, 0, 50⟩ true true (10, 20)) = (10, 20) :=
  ⟨by norm_num,
   adjust_keypoints_inverts_normalize ⟨0, 100, 0, 50⟩ true true (10, 20)
     (by norm_num) (by norm_num) (by norm_num) (by norm_num) (by norm_num)
     (by norm_num) (Or.inl rfl)⟩

/-! ## Pose state (pose.py:24-56)

`self.filenames` is always indexed as `self.filenames[0][video_id]` in
`pose.py`, so the embedding stores that inner list.  `Ly`/`Lx` are the
per-video frame heights and widths: `pose.py:300-302` allocates frame
buffers as `np.zeros((batch, nchannels, Ly[vid], Lx[vid]))`, the numpy
(height, width) image convention. -/

/-- The two-method progress host (spec §6); only `save_path` is consulted
by the embedded code paths. -/
structure Gui where
  save_path : String
  deriving DecidableEq

/-- The opaque model; the pipeline only reads its ordered keypoint list
(`self.net.bodyparts`). -/
structure Net where
  bodyparts : List String
  deriving DecidableEq

/-- A per-video bounding box `[x1, x2, y1, y2]` as appended by
`pose_prediction_setup` (pose.py:64-65). -/
structure Bbox4 where
  x1 : Int
  x2 : Int
  y1 : Int
  y2 : Int
  deriving DecidableEq, Inhabited

structure PoseState where
  filenames : List String
  Ly : List Nat
  Lx : List Nat
  cumframes : List Nat
  nframes : Nat
  bodyparts : List String
  bbox : List Bbox4
  bbox_set : Bool
  resize : Bool
  add_padding : Bool
  gui : Option Gui
  finetuned_model : Bool
  net : Option Net
  deriving DecidableEq

/-- A frame-fetch failure, carrying the video being processed and the
requested frame.  Modelled from the spec: `utils.get_frames` is not among
the sources; §7 requires failures to be "reported upward with enough
context (video identifier, frame index range)". -/
structure FetchErr where
  video : Nat
  frame : Nat
  deriving DecidableEq

/-- Exceptions surfaced by the embedded methods.  `zeroDivision` is the
ZeroDivisionError of `inference_speed = total_frames / inference_time`
(pose.py:354-355) when no inference time was accrued. -/
inductive PoseErr where
  | attr (msg : String)
  | fetch (e : FetchErr)
  | valueError
  | zeroDivision
  deriving DecidableEq

/-- Modelled from the spec: §6 Model load reads a descriptor and weights
from a fixed location and yields the model's keypoint identity;
`load_model` (pose.py:392-426) calls `model_loader`/`torch`, which are not
among the sources.  The artifact contents are opaque, so a fixed
representative model stands in for them; on the `model_state_file=None`
path embedded here `finetuned_model` is left unchanged. -/
def defaultNet : Net := ⟨["eye(back)"]⟩

/-- `load_model` state effect (pose.py:392-426): sets `self.bodyparts`
from the params file and installs the network. -/
def load_model (s : PoseState) : PoseState :=
  { s with bodyparts := defaultNet.bodyparts, net := some defaultNet }

/-- pose.py:72-76 builds the log message
`"No bbox set. Using entire frame view: {} and resize={}".format(self.gui.bbox, self.resize)`;
evaluating `self.gui.bbox` is an attribute access on `self.gui` and raises
when no GUI is attached.  `utils.update_mainwindow_message` itself is
modelled from the spec as a no-op (§5: progress reporting is
fire-and-forget and must never fail the run). -/
def guiBboxAccess (g : Option Gui) : Except PoseErr Unit :=
  match g with
  | none => .error (.attr "AttributeError: NoneType object has no attribute bbox")
  | some _ => .ok ()

/-- State mutation of one iteration of the bbox-derivation loop
(pose.py:63-71): `x1, x2, y1, y2 = 0, self.Ly[i], 0, self.Lx[i]`, append
the bbox, and raise the `add_padding` / `resize` flags. -/
def setupVideo (s : PoseState) (i : Nat) : PoseState :=
  let x1 : Int := 0
  let x2 : Int := s.Ly.getD i 0
  let y1 : Int := 0
  let y2 : Int := s.Lx.getD i 0
  { s with
    bbox := s.bbox ++ [⟨x1, x2, y1, y2⟩],
    add_padding := if x2 - x1 ≠ y2 - y1 then true else s.add_padding,
    resize := if x2 - x1 ≠ 256 ∨ y2 - y1 ≠ 256 then true else s.resize }

/-- The bbox-derivation half of `pose_prediction_setup` (pose.py:62-83):
skipped entirely when `self.bbox_set`; otherwise loops over the videos,
deriving a full-frame bbox and updating the flags, and sets `bbox_set`. -/
def setupBody (s : PoseState) : Except PoseErr PoseState :=
  if s.bbox_set then .ok s
  else do
    let s' ← (List.range s.Ly.length).foldlM (fun st i => do
      let st' := setupVideo st i
      let _ ← guiBboxAccess st'.gui
      pure st') s
    .ok { s' with bbox_set := true }

/-- `pose_prediction_setup` (pose.py:57-83): load the model if absent, then
derive bounding boxes. -/
def pose_prediction_setup (s : PoseState) : Except PoseErr PoseState :=
  setupBody (if s.net.isNone then load_model s else s)

theorem setupVideo_Ly (s : PoseState) (i : Nat) : (setupVideo s i).Ly = s.Ly := rfl

theorem setupVideo_Lx (s : PoseState) (i : Nat) : (setupVideo s i).Lx = s.Lx := rfl

theorem setupVideo_gui (s : PoseState) (i : Nat) : (setupVideo s i).gui = s.gui := rfl

theorem foldlM_setup_ok (g : Gui) :
    ∀ (l : List Nat) (st : PoseState), st.gui = some g →
      (l.foldlM (fun st i => do
          let st' := setupVideo st i
          let _ ← guiBboxAccess st'.gui
          pure st') st : Except PoseErr PoseState) = .ok (l.foldl setupVideo st) := by
  intro l
  induction l with
  | nil => intro st _; rfl
  | cons i t ih =>
    intro st hg
    have hg' : (setupVideo st i).gui = some g := by rw [setupVideo_gui]; exact hg
    simp only [List.foldlM_cons, List.foldl_cons, guiBboxAccess, hg']
    exact ih (setupVideo st i) hg'

theorem foldl_setupVideo_Ly (l : List Nat) :
    ∀ st : PoseState, (l.foldl setupVideo st).Ly = st.Ly := by
  induction l with
  | nil => intro st; rfl
  | cons i t ih => intro st; rw [List.foldl_cons, ih, setupVideo_Ly]

theorem foldl_setupVideo_Lx (l : List Nat) :
    ∀ st : PoseState, (l.foldl setupVideo st).Lx = st.Lx := by
  induction l with
  | nil => intro st; rfl
  | cons i t ih => intro st; rw [List.foldl_cons, ih, setupVideo_Lx]

theorem foldl_setupVideo_bbox (l : List Nat) :
    ∀ st : PoseState, (l.foldl setupVideo st).bbox =
      st.bbox ++ l.map (fun i => ⟨0, st.Ly.getD i 0, 0, st.Lx.getD i 0⟩) := by
  induction l with
  | nil => intro st; simp
  | cons i t ih =>
    intro st
    rw [List.foldl_cons, ih, List.map_cons]
    simp [setupVideo]

theorem foldl_setupVideo_add_padding (l : List Nat) :
    ∀ st : PoseState, (l.foldl setupVideo st).add_padding =
      (st.add_padding ||
        l.any (fun i => decide ((st.Ly.getD i 0 : Int) - 0 ≠ (st.Lx.getD i 0 : Int) - 0))) := by
  induction l with
  | nil => intro st; simp
  | cons i t ih =>
    intro st
    rw [List.foldl_cons, ih, List.any_cons]
    simp only [setupVideo_Ly, setupVideo_Lx]
    have hap : (setupVideo st i).add_padding =
        if (st.Ly.getD i 0 : Int) - 0 ≠ (st.Lx.getD i 0 : Int) - 0 then true
        else st.add_padding := rfl
    rw [hap]
    by_cases h : ((st.Ly.getD i 0 : Int) - 0 ≠ (st.Lx.getD i 0 : Int) - 0)
    · rw [if_pos h, decide_eq_true h]
      cases st.add_padding <;> rfl
    · rw [if_neg h, decide_eq_false h]
      rfl

theorem foldl_setupVideo_resize (l : List Nat) :
    ∀ st : PoseState, (l.foldl setupVideo st).resize =
      (st.resize ||
        l.any (fun i => decide ((st.Ly.getD i 0 : Int) - 0 ≠ 256 ∨ (st.Lx.getD i 0 : Int) - 0 ≠ 256))) := by
  induction l with
  | nil => intro st; simp
  | cons i t ih =>
    intro st
    rw [List.foldl_cons, ih, List.any_cons]
    simp only [setupVideo_Ly, setupVideo_Lx]
    have hrz : (setupVideo st i).resize =
        if (st.Ly.getD i 0 : Int) - 0 ≠ 256 ∨ (st.Lx.getD i 0 : Int) - 0 ≠ 256 then true
        else st.resize := rfl
    rw [hrz]
    by_cases h : ((st.Ly.getD i 0 : Int) - 0 ≠ 256 ∨ (st.Lx.getD i 0 : Int) - 0 ≠ 256)
    · rw [if_pos h, decide_eq_true h]
      cases st.resize <;> rfl
    · rw [if_neg h, decide_eq_false h]
      rfl

theorem getD_map_range (f : Nat → α) (n i : Nat) (h : i < n) (d : α) :
    ((List.range n).map f).getD i d = f i := by
  rw [List.getD_eq_getElem?_getD, List.getElem?_map, List.getElem?_range h]
  rfl

theorem setupBody_ok (s : PoseState) (g : Gui) (hg : s.gui = some g)
    (hb : s.bbox_set = false) :
    setupBody s =
      .ok { (List.range s.Ly.length).foldl setupVideo s with bbox_set := true } := by
  unfold setupBody
  rw [hb]
  simp only [Bool.false_eq_true, if_false]
  rw [foldlM_setup_ok g _ s hg]
  rfl

theorem pose_prediction_setup_eq_body (s : PoseState) (n : Net)
    (hn : s.net = some n) : pose_prediction_setup s = setupBody s := by
  unfold pose_prediction_setup
  rw [hn]
  rfl

/-- C2 (amended): with a progress host attached and an already-loaded
model, `pose_prediction_setup` with `bbox_set` unset derives for each
video `i` the full-frame bbox `[0, Ly[i], 0, Lx[i]]`, whose x-extent
`x2 - x1` is the frame's HEIGHT `Ly[i]` and whose y-extent `y2 - y1` is
the frame's WIDTH `Lx[i]` (both positive when the frame is nonempty);
the single shared `add_padding` flag ends up set iff some video's frame is
non-square and the shared `resize` flag iff some video's frame is not
256×256, so when every frame is exactly 256×256 both flags stay false. -/
theorem pose_prediction_setup_fullframe (s : PoseState) (g : Gui) (n : Net)
    (hg : s.gui = some g) (hn : s.net = some n) (hb : s.bbox_set = false)
    (hbb : s.bbox = []) (hap : s.add_padding = false) (hrz : s.resize = false)
    (hpos : ∀ i < s.Ly.length, 0 < s.Ly.getD i 0 ∧ 0 < s.Lx.getD i 0) :
    ∃ s', pose_prediction_setup s = .ok s' ∧
      s'.bbox = (List.range s.Ly.length).map
        (fun i => ⟨0, (s.Ly.getD i 0 : Int), 0, (s.Lx.getD i 0 : Int)⟩) ∧
      (∀ i < s.Ly.length,
        (s'.bbox.getD i default).x2 - (s'.bbox.getD i default).x1
            = (s.Ly.getD i 0 : Int) ∧
        (s'.bbox.getD i default).y2 - (s'.bbox.getD i default).y1
            = (s.Lx.getD i 0 : Int) ∧
        (s'.bbox.getD i default).x1 < (s'.bbox.getD i default).x2 ∧
        (s'.bbox.getD i default).y1 < (s'.bbox.getD i default).y2) ∧
      (s'.add_padding = true ↔
        ∃ i < s.Ly.length, s.Ly.getD i 0 ≠ s.Lx.getD i 0) ∧
      (s'.resize = true ↔
        ∃ i < s.Ly.length, ¬(s.Ly.getD i 0 = 256 ∧ s.Lx.getD i 0 = 256)) ∧
      ((∀ i < s.Ly.length, s.Ly.getD i 0 = 256 ∧ s.Lx.getD i 0 = 256) →
        s'.add_padding = false ∧ s'.resize = false) ∧
      s'.bbox_set = true := by
  rw [pose_prediction_setup_eq_body s n hn, setupBody_ok s g hg hb]
  refine ⟨_, rfl, ?_, ?_, ?_, ?_, ?_, rfl⟩
  · show (List.foldl setupVideo s _).bbox = _
    rw [foldl_setupVideo_bbox, hbb]
    rfl
  · intro i hi
    show ((List.foldl setupVideo s _).bbox.getD i default).x2 - _ = _ ∧ _
    rw [foldl_setupVideo_bbox, hbb, List.nil_append,
      getD_map_range _ _ _ hi]
    obtain ⟨h1, h2⟩ := hpos i hi
    refine ⟨by simp, by simp, ?_, ?_⟩ <;> simp only <;> exact_mod_cast ‹_›
  · show (List.foldl setupVideo s _).add_padding = true ↔ _
    rw [foldl_setupVideo_add_padding, hap, Bool.false_or, List.any_eq_true]
    constructor
    · rintro ⟨i, hi, hp⟩
      rw [List.mem_range] at hi
      refine ⟨i, hi, ?_⟩
      have := of_decide_eq_true hp
      omega
    · rintro ⟨i, hi, hp⟩
      refine ⟨i, List.mem_range.mpr hi, decide_eq_true ?_⟩
      omega
  · show (List.foldl setupVideo s _).resize = true ↔ _
    rw [foldl_setupVideo_resize, hrz, Bool.false_or, List.any_eq_true]
    constructor
    · rintro ⟨i, hi, hp⟩
      rw [List.mem_range] at hi
      refine ⟨i, hi, ?_⟩
      have := of_decide_eq_true hp
      omega
    · rintro ⟨i, hi, hp⟩
      refine ⟨i, List.mem_range.mpr hi, decide_eq_true ?_⟩
      omega
  · intro hall
    constructor
    · show (List.foldl setupVideo s _).add_padding = false
      rw [foldl_setupVideo_add_padding, hap, Bool.false_or]
      rw [List.any_eq_false]
      intro i hi
      rw [List.mem_range] at hi
      obtain ⟨hy, hx⟩ := hall i hi
      simp only [decide_eq_true_eq]
      omega
    · show (List.foldl setupVideo s _).resize = false
      rw [foldl_setupVideo_resize, hrz, Bool.false_or]
      rw [List.any_eq_false]
      intro i hi
      rw [List.mem_range] at hi
      obtain ⟨hy, hx⟩ := hall i hi
      simp only [decide_eq_true_eq]
      omega

/-- A single-video state for exercising the bbox auto-derivation: frame
height `Ly = 100`, frame width `Lx = 200` (pose.py:300 allocates frames
with the numpy (height, width) = `(Ly, Lx)` layout). -/
def c2State : PoseState :=
  { filenames := ["vid.avi"], Ly := [100], Lx := [200], cumframes := [5],
    nframes := 5, bodyparts := ["kp"], bbox := [], bbox_set := false,
    resize := false, add_padding := false, gui := some ⟨"/save"⟩,
    finetuned_model := false, net := some ⟨["kp"]⟩ }

/-- C2 counterexample: for `c2State` (height 100, width 200) the derived
bbox is `[0, 100, 0, 200]`, so its x-extent `x2 - x1 = 100` equals the
frame HEIGHT and differs from the frame width `Lx[0] = 200` — the claim
says the x-range spans the width. -/
theorem setup_bbox_x_extent_is_height_not_width :
    (pose_prediction_setup c2State).toOption.map PoseState.bbox
      = some [⟨0, 100, 0, 200⟩] ∧
    c2State.Ly.getD 0 0 = 100 ∧ c2State.Lx.getD 0 0 = 200 ∧
    ¬((100 : Int) - 0 = (c2State.Lx.getD 0 0 : Int)) := by
  refine ⟨rfl, rfl, rfl, by decide⟩

/-- A 256×256 single-video state: the identity-transform case. -/
def c2SquareState : PoseState :=
  { filenames := ["sq.avi"], Ly := [256], Lx := [256], cumframes := [4],
    nframes := 4, bodyparts := ["kp"], bbox := [], bbox_set := false,
    resize := false, add_padding := false, gui := some ⟨"/save"⟩,
    finetuned_model := false, net := some ⟨["kp"]⟩ }

/-- Witness for `pose_prediction_setup_fullframe` on the 256×256 video:
all hypotheses hold concretely and both flags stay false. -/
theorem pose_prediction_setup_fullframe_witness :
    (c2SquareState.gui = some ⟨"/save"⟩ ∧ c2SquareState.bbox_set = false ∧
      c2SquareState.bbox = [] ∧
      (∀ i < c2SquareState.Ly.length,
        0 < c2SquareState.Ly.getD i 0 ∧ 0 < c2SquareState.Lx.getD i 0)) ∧
    (∃ s', pose_prediction_setup c2SquareState = .ok s' ∧
      s'.bbox = (List.range c2SquareState.Ly.length).map
        (fun i => ⟨0, (c2SquareState.Ly.getD i 0 : Int), 0,
          (c2SquareState.Lx.getD i 0 : Int)⟩) ∧
      (∀ i < c2SquareState.Ly.length,
        (s'.bbox.getD i default).x2 - (s'.bbox.getD i default).x1
            = (c2SquareState.Ly.getD i 0 : Int) ∧
        (s'.bbox.getD i default).y2 - (s'.bbox.getD i default).y1
            = (c2SquareState.Lx.getD i 0 : Int) ∧
        (s'.bbox.getD i default).x1 < (s'.bbox.getD i default).x2 ∧
        (s'.bbox.getD i default).y1 < (s'.bbox.getD i default).y2) ∧
      (s'.add_padding = true ↔
        ∃ i < c2SquareState.Ly.length,
          c2SquareState.Ly.getD i 0 ≠ c2SquareState.Lx.getD i 0) ∧
      (s'.resize = true ↔
        ∃ i < c2SquareState.Ly.length,
          ¬(c2SquareState.Ly.getD i 0 = 256 ∧ c2SquareState.Lx.getD i 0 = 256)) ∧
      ((∀ i < c2SquareState.Ly.length,
          c2SquareState.Ly.getD i 0 = 256 ∧ c2SquareState.Lx.getD i 0 = 256) →
        s'.add_padding = false ∧ s'.resize = false) ∧
      s'.bbox_set = true) :=
  ⟨⟨rfl, rfl, rfl, by decide⟩,
   pose_prediction_setup_fullframe c2SquareState ⟨"/save"⟩ ⟨["kp"]⟩ rfl rfl rfl
     rfl rfl rfl (by decide)⟩

theorem setupBody_no_gui (t : PoseState) (hg : t.gui = none)
    (hb : t.bbox_set = false) (hl : t.Ly ≠ []) :
    setupBody t =
      .error (.attr "AttributeError: NoneType object has no attribute bbox") := by
  obtain ⟨a, l, hLy⟩ : ∃ a l, t.Ly = a :: l := by
    cases h : t.Ly with
    | nil => exact absurd h hl
    | cons a l => exact ⟨a, l, rfl⟩
  unfold setupBody
  rw [hb]
  simp only [Bool.false_eq_true, if_false]
  rw [hLy]
  show ((List.range (a :: l).length).foldlM _ t : Except PoseErr PoseState) >>=
      (fun s' => Except.ok { s' with bbox_set := true }) = _
  rw [List.length_cons, List.range_succ_eq_map, List.foldlM_cons]
  have : guiBboxAccess (setupVideo t 0).gui =
      .error (.attr "AttributeError: NoneType object has no attribute bbox") := by
    rw [setupVideo_gui, hg]
    rfl
  simp only [this]
  rfl

/-- C3 (code bug): for any `Pose` state with no GUI attached and
`bbox_set` false over at least one video, `pose_prediction_setup` raises —
building the log message at pose.py:72-76 evaluates `self.gui.bbox`, an
attribute access on `None` — although the spec requires the run to work
with a no-op progress receiver. -/
theorem pose_prediction_setup_no_gui_raises (s : PoseState)
    (hg : s.gui = none) (hb : s.bbox_set = false) (hl : s.Ly ≠ []) :
    pose_prediction_setup s =
      .error (.attr "AttributeError: NoneType object has no attribute bbox") := by
  unfold pose_prediction_setup
  by_cases hnet : s.net.isNone
  · rw [if_pos hnet]
    exact setupBody_no_gui (load_model s) hg hb hl
  · rw [if_neg hnet]
    exact setupBody_no_gui s hg hb hl

/-- A headless (gui = None) state with bounding boxes not yet set. -/
def c3State : PoseState :=
  { filenames := ["cam0.avi"], Ly := [100], Lx := [100], cumframes := [3],
    nframes := 3, bodyparts := ["kp"], bbox := [], bbox_set := false,
    resize := false, add_padding := false, gui := none,
    finetuned_model := false, net := some ⟨["kp"]⟩ }

/-- Witness for `pose_prediction_setup_no_gui_raises`: the concrete
headless state satisfies the hypotheses, and setup raises. -/
theorem pose_prediction_setup_no_gui_raises_witness :
    (c3State.gui = none ∧ c3State.bbox_set = false ∧ c3State.Ly ≠ []) ∧
    pose_prediction_setup c3State =
      .error (.attr "AttributeError: NoneType object has no attribute bbox") :=
  ⟨⟨rfl, rfl, by decide⟩,
   pose_prediction_setup_no_gui_raises c3State rfl rfl (by decide)⟩

/-! ## predict_landmarks (pose.py:258-366) -/

/-- Per-frame keypoint row: (x, y, likelihood) triples, one per keypoint. -/
abbrev KpRow := List (ℚ × ℚ × ℚ)

/-- External effects of one prediction run.  `netOut f` is the network
output for frame `f` in 256×256 model space (`pose_utils.predict`, an
external collaborator per spec §4.2); `fetchFail f` says whether decoding
frame `f` fails (`utils.get_frames` is not among the sources; spec §7
FrameFetchError); `work r` is the wall-clock duration of the timed section
(preprocess + inference + keypoint postprocess, pose.py:307-340) of the
batch starting at row `r`. -/
structure Oracles where
  netOut : Nat → KpRow
  fetchFail : Nat → Bool
  work : Nat → ℚ

/-- The metadata record built at pose.py:358-365.  The key holding the
keypoint names is `bodyparts`, and `image_size` is the pair of the height
and width lists of ALL videos (`(self.Ly, self.Lx)`). -/
structure RunMetadata where
  batch_size : Nat
  image_size : List Nat × List Nat
  bbox : Bbox4
  total_frames : Nat
  bodyparts : List String
  inference_speed : ℚ
  deriving DecidableEq

/-- Keys of the metadata dict literal, in insertion order
(pose.py:358-365). -/
def metadataKeys : List String :=
  ["batch_size", "image_size", "bbox", "total_frames", "bodyparts",
   "inference_speed"]

/-- `np.floor(total_frames * 0.05)` (pose.py:346).  The Python literal
`0.05` is the IEEE double 3602879701896397 / 2^56 and `np.floor` is exact,
so the threshold is the rational floor of the exact product (the double
rounding of the product cannot change the floor in the ranges the theorems
use). -/
def progressThreshold (tf : Nat) : ℚ :=
  ((⌊(tf : ℚ) * (3602879701896397 / 2 ^ 56)⌋ : ℤ) : ℚ)

/-- numpy semantics of `%` with a float divisor (pose.py:346): `x % 0.0`
is nan (plus a RuntimeWarning), not a ZeroDivisionError; `none` plays
nan and compares unequal to every number. -/
def npFmod (a b : ℚ) : Option ℚ :=
  if b = 0 then none else some (a - b * ⌊a / b⌋)

/-- The progress-bar condition
`(end) % np.floor(total_frames * 0.05) == 0` (pose.py:346). -/
def progressHit (tf e : Nat) : Bool :=
  decide (npFmod (e : ℚ) (progressThreshold tf) = some 0)

/-- Instrumented state of the batch loop (pose.py:297-352).  `rows` is the
pre-allocated prediction buffer (`none` = still the `torch.zeros` fill);
the other fields are ghost instrumentation: row indices written, frames
consumed (the `cframes` slices concatenated), iteration count, accumulated
inference time, progress events emitted (the `end` value at each emission). -/
structure RunSt where
  rows : List (Option KpRow)
  writes : List Nat
  consumed : List Nat
  iters : Nat
  itime : ℚ
  events : List Nat
  deriving DecidableEq

/-- Int bbox on the rational plane. -/
def toQ (b : Bbox4) : BboxQ := ⟨b.x1, b.x2, b.y1, b.y2⟩

/-- The keypoint post-processing of one batch (pose.py:310-337): the
network output for the frame is passed through `adjust_keypoints` with
`crop_xy = (x1, y1)` taken from the video's bbox (pose.py:285), `padding`
and `desired_size` taken from `preprocess_img`'s outputs, and
`current_size = (256, 256)`; the likelihood channel is passed through. -/
def rowFor (s : PoseState) (oc : Oracles) (vid frame : Nat) : KpRow :=
  let b := toQ (s.bbox.getD vid default)
  (oc.netOut frame).map (fun t =>
    let q := adjust_keypoints (t.1, t.2.1) (b.x1, b.y1)
      (padOffsets b s.add_padding) (256, 256) (postpadShape b s.add_padding)
    (q.1, q.2, t.2.2))

/-- The batch loop (pose.py:297-352) with `batch_size = 1`
(pose.py:264-269 fixes 1 on both the CUDA and CPU branches).  At every
loop test the code's `end` equals `min(start + 1, total_frames)`, so the
loop is indexed by `start` alone, and on reachable states (where `start`
never exceeds `total_frames`) the guard `start != total_frames` equals
`start < total_frames`.  One iteration: slice `cframes =
frame_ind[start:end]`, fetch (raising FrameFetchError on failure),
preprocess + infer + postprocess (timed), write rows `[start, end)`, then
advance `start`/`end` and test the progress condition on the new `end`. -/
def batchLoop (s : PoseState) (oc : Oracles) (vid tf : Nat)
    (frameAt : Nat → Nat) (start : Nat) (st : RunSt) : Except PoseErr RunSt :=
  if h : start < tf then
    let f := frameAt start
    if oc.fetchFail f then .error (.fetch ⟨vid, f⟩)
    else
      let e2 := min (start + 1 + 1) tf
      batchLoop s oc vid tf frameAt (start + 1)
        { rows := st.rows.set start (some (rowFor s oc vid f)),
          writes := st.writes ++ [start],
          consumed := st.consumed ++ [f],
          iters := st.iters + 1,
          itime := st.itime + oc.work start,
          events := if progressHit tf e2 then st.events ++ [e2] else st.events }
  else .ok st
termination_by tf - start
decreasing_by omega

/-- `predict_landmarks` (pose.py:258-366).  `frame_ind = none` is the
whole-video call: `total_frames = cumframes[-1]` and `frame_ind =
arange(total_frames)`.  `t0` is taken after `utils.get_frames`
(pose.py:304-307) and the elapsed time accumulated after the keypoint
write-back (pose.py:340), so `itime` sums only the `work` durations,
never fetch time.  pose.py:354-355 then computes `inference_speed =
total_frames / inference_time`; when no inference time was accrued
(`inference_time = 0`, which is certain at `total_frames = 0`, reachable
via an empty `frame_ind`) Python raises ZeroDivisionError and the function
never returns, modelled by the `zeroDivision` error. -/
def predict_landmarks (s : PoseState) (oc : Oracles) (vid : Nat)
    (frame_ind : Option (List Nat)) : Except PoseErr (RunSt × RunMetadata) :=
  match s.net with
  | none => .error (.attr "AttributeError: NoneType object has no attribute bodyparts")
  | some n =>
    let tf := match frame_ind with
      | none => s.cumframes.getLast?.getD 0
      | some l => l.length
    let frameList := match frame_ind with
      | none => List.range tf
      | some l => l
    match batchLoop s oc vid tf (fun i => frameList.getD i 0) 0
        ⟨List.replicate tf none, [], [], 0, 0, []⟩ with
    | .error e => .error e
    | .ok st =>
      if st.itime = 0 then .error .zeroDivision
      else
        .ok (st, { batch_size := 1, image_size := (s.Ly, s.Lx),
                   bbox := s.bbox.getD vid default, total_frames := tf,
                   bodyparts := n.bodyparts,
                   inference_speed := (tf : ℚ) / st.itime })

/-- The `start` indices processed by the batch loop from `start` on. -/
def procList (tf start : Nat) : List Nat :=
  if start < tf then start :: procList tf (start + 1) else []
termination_by tf - start
decreasing_by omega

/-- The progress event (if any) emitted by the iteration whose batch
starts at `s0` (pose.py:341-352): the updated `end` is
`min(s0 + 2, total_frames)`. -/
def eventOf (tf s0 : Nat) : Option Nat :=
  let e2 := min (s0 + 1 + 1) tf
  if progressHit tf e2 then some e2 else none

theorem procList_eq_range' (tf : Nat) : ∀ k start, tf - start = k →
    procList tf start = List.range' start (tf - start) := by
  intro k
  induction k with
  | zero =>
    intro start h
    unfold procList
    rw [if_neg (by omega), h]
    rfl
  | succ k ih =>
    intro start h
    have hlt : start < tf := by omega
    unfold procList
    rw [if_pos hlt, ih (start + 1) (by omega)]
    have h2 : tf - start = (tf - (start + 1)) + 1 := by omega
    rw [h2, List.range'_succ]

theorem procList_zero (tf : Nat) : procList tf 0 = List.range tf := by
  rw [procList_eq_range' tf tf 0 rfl, Nat.sub_zero, List.range_eq_range']

theorem batchLoop_ok (s : PoseState) (oc : Oracles) (vid tf : Nat)
    (frameAt : Nat → Nat) :
    ∀ k start st, tf - start = k →
      (∀ i, start ≤ i → i < tf → oc.fetchFail (frameAt i) = false) →
      batchLoop s oc vid tf frameAt start st = .ok
        { rows := (procList tf start).foldl
            (fun r i => r.set i (some (rowFor s oc vid (frameAt i)))) st.rows,
          writes := st.writes ++ procList tf start,
          consumed := st.consumed ++ (procList tf start).map frameAt,
          iters := st.iters + (tf - start),
          itime := st.itime + ((procList tf start).map oc.work).sum,
          events := st.events ++ (procList tf start).filterMap (eventOf tf) } := by
  intro k
  induction k with
  | zero =>
    intro start st h hf
    unfold batchLoop
    rw [dif_neg (by omega)]
    unfold procList
    rw [if_neg (by omega), h]
    simp
  | succ k ih =>
    intro start st h hf
    have hlt : start < tf := by omega
    unfold batchLoop
    rw [dif_pos hlt]
    simp only [hf start le_rfl hlt, Bool.false_eq_true, if_false]
    rw [ih (start + 1) _ (by omega) (fun i hi1 hi2 => hf i (by omega) hi2)]
    have hproc : procList tf start = start :: procList tf (start + 1) := by
      conv_lhs => unfold procList
      rw [if_pos hlt]
    rw [hproc]
    simp only [RunSt.mk.injEq, List.foldl_cons, List.map_cons, List.sum_cons]
    refine congrArg Except.ok ?_
    have hwr : st.writes ++ [start] ++ procList tf (start + 1) =
        st.writes ++ start :: procList tf (start + 1) := by simp
    have hco : st.consumed ++ [frameAt start] ++
        List.map frameAt (procList tf (start + 1)) =
        st.consumed ++ frameAt start :: List.map frameAt (procList tf (start + 1)) := by
      simp
    have hit : st.iters + 1 + (tf - (start + 1)) = st.iters + (tf - start) := by
      omega
    have hti : st.itime + oc.work start +
        (List.map oc.work (procList tf (start + 1))).sum =
        st.itime + (oc.work start +
          (List.map oc.work (procList tf (start + 1))).sum) := by ring
    have hevv : (if progressHit tf ((start + 1 + 1) ⊓ tf) = true then
          st.events ++ [(start + 1 + 1) ⊓ tf] else st.events) ++
        List.filterMap (eventOf tf) (procList tf (start + 1)) =
        st.events ++ List.filterMap (eventOf tf) (start :: procList tf (start + 1)) := by
      cases hp : progressHit tf (min (start + 1 + 1) tf) with
      | false =>
        have he : eventOf tf start = none := by
          unfold eventOf
          simp [hp]
        rw [List.filterMap_cons, he]
        simp [hp]
      | true =>
        have he : eventOf tf start = some (min (start + 1 + 1) tf) := by
          unfold eventOf
          simp [hp]
        rw [List.filterMap_cons, he]
        simp [hp]
    rw [hwr, hco, hit, hti, hevv]

theorem foldl_set_length (g : Nat → Option KpRow) :
    ∀ (l : List Nat) (r : List (Option KpRow)),
      (l.foldl (fun r i => r.set i (g i)) r).length = r.length := by
  intro l
  induction l with
  | nil => intro r; rfl
  | cons i t ih =>
    intro r
    rw [List.foldl_cons, ih, List.length_set]

theorem foldl_set_get_of_mem (g : Nat → Option KpRow) (l : List Nat) :
    ∀ (r : List (Option KpRow)) (k : Nat), k < r.length → k ∈ l →
      (l.foldl (fun r i => r.set i (g i)) r)[k]? = some (g k) := by
  induction l using List.reverseRecOn with
  | nil =>
    intro r k _ hm
    exact absurd hm (List.not_mem_nil k)
  | append_singleton t j ih =>
    intro r k hk hm
    rw [List.foldl_append, List.foldl_cons, List.foldl_nil]
    by_cases hkj : k = j
    · subst hkj
      rw [List.getElem?_set_self]
      rw [foldl_set_length]
      exact hk
    · rw [List.getElem?_set_ne (by omega)]
      have hm' : k ∈ t := by
        rcases List.mem_append.mp hm with h | h
        · exact h
        · simp at h
          exact absurd h hkj
      exact ih r k hk hm'

theorem map_getD_range_self (l : List Nat) :
    (List.range l.length).map (fun i => l.getD i 0) = l := by
  apply List.ext_getElem
  · simp
  · intro i h1 h2
    simp [List.getD_eq_getElem?_getD, List.getElem?_eq_getElem h2]

/-- Normal form of a fetch-failure-free `predict_landmarks` run. -/
theorem predict_landmarks_ok (s : PoseState) (oc : Oracles) (vid : Nat)
    (frame_ind : Option (List Nat)) (n : Net) (hn : s.net = some n)
    (hfetch : ∀ f, oc.fetchFail f = false) (tf : Nat) (frameList : List Nat)
    (htf : tf = match frame_ind with
      | none => s.cumframes.getLast?.getD 0
      | some l => l.length)
    (hfl : frameList = match frame_ind with
      | none => List.range tf
      | some l => l)
    (hpos : ((List.range tf).map oc.work).sum ≠ 0) :
    predict_landmarks s oc vid frame_ind = .ok
      ({ rows := (List.range tf).foldl
           (fun r i => r.set i (some (rowFor s oc vid (frameList.getD i 0))))
           (List.replicate tf none),
         writes := List.range tf,
         consumed := (List.range tf).map (fun i => frameList.getD i 0),
         iters := tf,
         itime := ((List.range tf).map oc.work).sum,
         events := (List.range tf).filterMap (eventOf tf) },
       { batch_size := 1, image_size := (s.Ly, s.Lx),
         bbox := s.bbox.getD vid default, total_frames := tf,
         bodyparts := n.bodyparts,
         inference_speed := (tf : ℚ) / ((List.range tf).map oc.work).sum }) := by
  cases frame_ind with
  | none =>
    have htf2 : tf = s.cumframes.getLast?.getD 0 := htf
    have hfl2 : frameList = List.range tf := hfl
    subst hfl2
    subst htf2
    simp only [predict_landmarks, hn]
    rw [batchLoop_ok s oc vid (s.cumframes.getLast?.getD 0)
      (fun i => (List.range (s.cumframes.getLast?.getD 0)).getD i 0)
      (s.cumframes.getLast?.getD 0) 0 _ (by omega) (fun i _ _ => hfetch _)]
    simp [procList_zero, hpos]
  | some l =>
    have hfl2 : frameList = l := hfl
    have htf2 : tf = frameList.length := by rw [hfl2]; exact htf
    subst htf2
    subst hfl2
    simp only [predict_landmarks, hn]
    rw [batchLoop_ok s oc vid frameList.length (fun i => frameList.getD i 0)
      frameList.length 0 _ (by omega) (fun i _ _ => hfetch _)]
    simp [procList_zero, hpos]

/-- Any run with at least one batch and positive per-batch durations
accrues nonzero inference time. -/
theorem work_sum_ne_zero (oc : Oracles) (n : Nat) (h0 : 0 < n)
    (hw : ∀ r, 0 < oc.work r) : ((List.range n).map oc.work).sum ≠ 0 := by
  have hpos : 0 < ((List.range n).map oc.work).sum := by
    apply List.sum_pos
    · intro x hx
      obtain ⟨r, -, rfl⟩ := List.mem_map.mp hx
      exact hw r
    · intro hcon
      have h2 := congrArg List.length hcon
      rw [List.length_map, List.length_range] at h2
      simp at h2
      omega
  exact ne_of_gt hpos

/-- C9 (amended): for every requested frame list (explicit or the default
`arange(total_frames)`) whose run accrues nonzero inference time — in
particular every `total_frames > 0` run with positive per-batch
durations — the batch loop of `predict_landmarks` terminates (the
embedding is a total function), runs exactly `total_frames` iterations,
consumes each requested frame index exactly once (the concatenation of
the per-batch `cframes` slices is exactly `frame_ind`), and writes every
row of the pre-allocated `(total_frames, K, 3)` buffer exactly once (the
written-row trace is `[0, ..., total_frames)` without duplicates, and
every buffer row holds its frame's prediction on return).  At
`total_frames = 0` the loop still terminates after zero iterations, but
the function then raises ZeroDivisionError instead of returning. -/
theorem predict_landmarks_loop_covers (s : PoseState) (oc : Oracles)
    (vid : Nat) (frame_ind : Option (List Nat)) (n : Net)
    (hn : s.net = some n) (hfetch : ∀ f, oc.fetchFail f = false)
    (tf : Nat) (frameList : List Nat)
    (htf : tf = match frame_ind with
      | none => s.cumframes.getLast?.getD 0
      | some l => l.length)
    (hfl : frameList = match frame_ind with
      | none => List.range tf
      | some l => l)
    (hpos : ((List.range tf).map oc.work).sum ≠ 0) :
    ∃ out, predict_landmarks s oc vid frame_ind = .ok out ∧
      out.1.iters = tf ∧
      out.1.writes = List.range tf ∧
      out.1.writes.Nodup ∧
      out.1.consumed = frameList ∧
      out.1.rows.length = tf ∧
      (∀ r < tf, out.1.rows[r]? =
        some (some (rowFor s oc vid (frameList.getD r 0)))) := by
  have hlen : frameList.length = tf := by
    cases frame_ind with
    | none =>
      have h1 : frameList = List.range tf := hfl
      rw [h1, List.length_range]
    | some l =>
      have h1 : frameList = l := hfl
      have h2 : tf = l.length := htf
      rw [h1, h2]
  refine ⟨_, predict_landmarks_ok s oc vid frame_ind n hn hfetch tf frameList
    htf hfl hpos, rfl, rfl, List.nodup_range tf, ?_, ?_, ?_⟩
  · show (List.range tf).map (fun i => frameList.getD i 0) = frameList
    rw [← hlen, map_getD_range_self]
  · show ((List.range tf).foldl _ (List.replicate tf none)).length = tf
    rw [foldl_set_length (fun i => some (rowFor s oc vid (frameList.getD i 0))),
      List.length_replicate]
  · intro r hr
    show ((List.range tf).foldl _ (List.replicate tf none))[r]? = _
    rw [foldl_set_get_of_mem (fun i => some (rowFor s oc vid (frameList.getD i 0)))
      (List.range tf) (List.replicate tf none) r
      (by rw [List.length_replicate]; exact hr) (List.mem_range.mpr hr)]

/-- Shared concrete oracles: one keypoint at model-space (10, 20) with
likelihood 1 for every frame, no fetch failures, one time unit of model
work per batch. -/
def constOracles : Oracles :=
  ⟨fun _ => [((10 : ℚ), 20, 1)], fun _ => false, fun _ => 1⟩

/-- A one-video, two-frame state with bounding boxes already set. -/
def c9State : PoseState :=
  { filenames := ["v.avi"], Ly := [64], Lx := [64], cumframes := [2],
    nframes := 2, bodyparts := ["kp"], bbox := [⟨0, 64, 0, 64⟩],
    bbox_set := true, resize := true, add_padding := false, gui := none,
    finetuned_model := false, net := some ⟨["kp"]⟩ }

/-- Witness for `predict_landmarks_loop_covers` on the two-frame state. -/
theorem predict_landmarks_loop_covers_witness :
    (c9State.net = some ⟨["kp"]⟩ ∧ (2 : Nat) =
      c9State.cumframes.getLast?.getD 0 ∧
      ((List.range 2).map constOracles.work).sum ≠ 0) ∧
    ∃ out, predict_landmarks c9State constOracles 0 none = .ok out ∧
      out.1.iters = 2 ∧
      out.1.writes = List.range 2 ∧
      out.1.writes.Nodup ∧
      out.1.consumed = List.range 2 ∧
      out.1.rows.length = 2 ∧
      (∀ r < 2, out.1.rows[r]? =
        some (some (rowFor c9State constOracles 0 ((List.range 2).getD r 0)))) :=
  ⟨⟨rfl, rfl, by norm_num [List.range_succ, constOracles]⟩,
   predict_landmarks_loop_covers c9State constOracles 0 none ⟨["kp"]⟩ rfl
     (fun _ => rfl) 2 (List.range 2) rfl rfl
     (by norm_num [List.range_succ, constOracles])⟩

/-- C9 counterexample: with an empty requested frame list (`frame_ind =
[]`, so `total_frames = 0`) the batch loop itself still terminates after
zero iterations, returning its state untouched — but no inference time
accrues, so pose.py:355 divides `total_frames` by zero and
`predict_landmarks` raises ZeroDivisionError instead of returning. -/
theorem predict_landmarks_tf_zero_raises :
    batchLoop c9State constOracles 0 0 (fun i => ([] : List Nat).getD i 0) 0
      ⟨[], [], [], 0, 0, []⟩ = .ok ⟨[], [], [], 0, 0, []⟩ ∧
    predict_landmarks c9State constOracles 0 (some []) =
      .error PoseErr.zeroDivision := by
  constructor
  · unfold batchLoop
    rw [dif_neg (by omega)]
  · simp only [predict_landmarks, show c9State.net = some ⟨["kp"]⟩ from rfl,
      List.length_nil]
    rw [batchLoop_ok c9State constOracles 0 0
      (fun i => ([] : List Nat).getD i 0) 0 0 _ (by omega)
      (fun i _ h => absurd h (Nat.not_lt_zero i))]
    simp [procList_zero]

/-- A two-video state whose frame sizes differ per video (heights 10, 20;
widths 30, 40), bounding boxes already set. -/
def c8State : PoseState :=
  { filenames := ["a.avi", "b.avi"], Ly := [10, 20], Lx := [30, 40],
    cumframes := [2], nframes := 2, bodyparts := ["kp"],
    bbox := [⟨0, 10, 0, 30⟩, ⟨0, 20, 0, 40⟩], bbox_set := true,
    resize := true, add_padding := true, gui := none,
    finetuned_model := false, net := some ⟨["kp"]⟩ }

/-- C8 counterexample: the metadata record has no `keypoint_names` field
(the keypoint names live under the key `bodyparts`), and for a two-video
instance the `image_size` entry of video 0's metadata is the pair of the
FULL height/width lists `([10, 20], [30, 40])` of all videos, not video
0's own frame dimensions (its height list would be `[10]`). -/
theorem metadata_fields_differ_from_claim :
    "keypoint_names" ∉ metadataKeys ∧
    (predict_landmarks c8State constOracles 0 none).toOption.map
      (fun out => out.2.image_size) = some ([10, 20], [30, 40]) ∧
    ([10, 20] : List Nat) ≠ [c8State.Ly.getD 0 0] := by
  refine ⟨by decide, ?_, by decide⟩
  rw [predict_landmarks_ok c8State constOracles 0 none ⟨["kp"]⟩ rfl
    (fun _ => rfl) 2 (List.range 2) rfl rfl
    (by norm_num [List.range_succ, constOracles])]
  rfl

/-- C8 (amended): a completed `predict_landmarks` run returns a metadata
record with exactly the keys {batch_size, image_size, bbox, total_frames,
bodyparts, inference_speed}; `bodyparts` holds the model's keypoint
names, `image_size` is the pair of the height and width lists of all
videos, `bbox` the processed video's bounding box, `total_frames` the
number of requested frames, and `inference_speed` is `total_frames`
divided by the elapsed time that sums only the per-batch preprocess +
inference + postprocess durations — frame-fetch I/O is outside the timed
interval. -/
theorem predict_landmarks_metadata (s : PoseState) (oc : Oracles)
    (vid : Nat) (frame_ind : Option (List Nat)) (n : Net)
    (hn : s.net = some n) (hfetch : ∀ f, oc.fetchFail f = false)
    (tf : Nat) (frameList : List Nat)
    (htf : tf = match frame_ind with
      | none => s.cumframes.getLast?.getD 0
      | some l => l.length)
    (hfl : frameList = match frame_ind with
      | none => List.range tf
      | some l => l)
    (hpos : 0 < ((List.range tf).map oc.work).sum) :
    metadataKeys = ["batch_size", "image_size", "bbox", "total_frames",
      "bodyparts", "inference_speed"] ∧
    ∃ out, predict_landmarks s oc vid frame_ind = .ok out ∧
      out.1.itime = ((List.range tf).map oc.work).sum ∧
      out.2 = { batch_size := 1, image_size := (s.Ly, s.Lx),
                bbox := s.bbox.getD vid default, total_frames := tf,
                bodyparts := n.bodyparts,
                inference_speed :=
                  (tf : ℚ) / ((List.range tf).map oc.work).sum } :=
  ⟨rfl, _, predict_landmarks_ok s oc vid frame_ind n hn hfetch tf frameList
    htf hfl (ne_of_gt hpos), rfl, rfl⟩

/-- Witness for `predict_landmarks_metadata` on the two-video state. -/
theorem predict_landmarks_metadata_witness :
    (c8State.net = some ⟨["kp"]⟩ ∧
      (0 : ℚ) < ((List.range 2).map constOracles.work).sum) ∧
    (metadataKeys = ["batch_size", "image_size", "bbox", "total_frames",
      "bodyparts", "inference_speed"] ∧
    ∃ out, predict_landmarks c8State constOracles 0 none = .ok out ∧
      out.1.itime = ((List.range 2).map constOracles.work).sum ∧
      out.2 = { batch_size := 1, image_size := (c8State.Ly, c8State.Lx),
                bbox := c8State.bbox.getD 0 default, total_frames := 2,
                bodyparts := ["kp"],
                inference_speed :=
                  ((2 : Nat) : ℚ) / ((List.range 2).map constOracles.work).sum }) :=
  ⟨⟨rfl, by norm_num [List.range_succ, constOracles]⟩,
   predict_landmarks_metadata c8State constOracles 0 none ⟨["kp"]⟩ rfl
     (fun _ => rfl) 2 (List.range 2) rfl rfl
     (by norm_num [List.range_succ, constOracles])⟩

theorem progressThreshold_eq_zero {tf : Nat} (h2 : tf < 20) :
    progressThreshold tf = 0 := by
  unfold progressThreshold
  have h0 : (0 : ℚ) ≤ (tf : ℚ) * (3602879701896397 / 2 ^ 56) := by positivity
  have h19 : (tf : ℚ) ≤ 19 := by exact_mod_cast Nat.le_of_lt_succ h2
  have h1 : (tf : ℚ) * (3602879701896397 / 2 ^ 56) < 1 := by
    calc (tf : ℚ) * (3602879701896397 / 2 ^ 56)
        ≤ 19 * (3602879701896397 / 2 ^ 56) :=
          mul_le_mul_of_nonneg_right h19 (by positivity)
      _ < 1 := by norm_num
  rw [Int.floor_eq_zero_iff.mpr (Set.mem_Ico.mpr ⟨h0, h1⟩)]
  rfl

theorem progressHit_of_threshold_zero {tf : Nat}
    (h : progressThreshold tf = 0) (e : Nat) : progressHit tf e = false := by
  unfold progressHit npFmod
  rw [h]
  simp

/-- C10: for a run over all frames of a video with 0 < total_frames < 20,
the 5% threshold `np.floor(total_frames * 0.05)` is exactly 0, the
progress condition computes `end % 0.0` which under numpy float semantics
is nan rather than a ZeroDivisionError, nan equals nothing, so no
progress-bar update is ever emitted — yet the run completes and returns
its predictions with every buffer row written.  (Positive per-batch
inference durations, as any real clock provides, keep the run clear of
the pose.py:355 division; with total_frames > 0 this makes
inference_time > 0.) -/
theorem predict_landmarks_short_video_no_progress (s : PoseState)
    (oc : Oracles) (vid : Nat) (n : Net) (hn : s.net = some n)
    (hfetch : ∀ f, oc.fetchFail f = false)
    (hwork : ∀ r, 0 < oc.work r)
    (h1 : 0 < s.cumframes.getLast?.getD 0)
    (h2 : s.cumframes.getLast?.getD 0 < 20) :
    progressThreshold (s.cumframes.getLast?.getD 0) = 0 ∧
    (∀ e, progressHit (s.cumframes.getLast?.getD 0) e = false) ∧
    ∃ out, predict_landmarks s oc vid none = .ok out ∧
      out.1.events = [] ∧
      out.1.iters = s.cumframes.getLast?.getD 0 ∧
      (∀ r < s.cumframes.getLast?.getD 0, out.1.rows[r]? =
        some (some (rowFor s oc vid
          ((List.range (s.cumframes.getLast?.getD 0)).getD r 0)))) := by
  have hthr := progressThreshold_eq_zero h2
  have hhit := progressHit_of_threshold_zero hthr
  have hpos := work_sum_ne_zero oc (s.cumframes.getLast?.getD 0) h1 hwork
  obtain ⟨out, hout, hiters, -, -, -, -, hrows⟩ :=
    predict_landmarks_loop_covers s oc vid none n hn hfetch
      (s.cumframes.getLast?.getD 0) (List.range (s.cumframes.getLast?.getD 0))
      rfl rfl hpos
  refine ⟨hthr, hhit, out, hout, ?_, hiters, hrows⟩
  have hev : out.1.events =
      (List.range (s.cumframes.getLast?.getD 0)).filterMap
        (eventOf (s.cumframes.getLast?.getD 0)) := by
    rw [predict_landmarks_ok s oc vid none n hn hfetch
      (s.cumframes.getLast?.getD 0) (List.range (s.cumframes.getLast?.getD 0))
      rfl rfl hpos] at hout
    cases hout
    rfl
  rw [hev, List.filterMap_eq_nil]
  intro a _
  unfold eventOf
  simp [hhit]

/-- A five-frame, one-video state: short enough that the 5% threshold
floors to zero. -/
def c10State : PoseState :=
  { filenames := ["s.avi"], Ly := [64], Lx := [64], cumframes := [5],
    nframes := 5, bodyparts := ["kp"], bbox := [⟨0, 64, 0, 64⟩],
    bbox_set := true, resize := true, add_padding := false, gui := none,
    finetuned_model := false, net := some ⟨["kp"]⟩ }

/-- Witness for `predict_landmarks_short_video_no_progress` at 5 frames. -/
theorem predict_landmarks_short_video_no_progress_witness :
    ((0 : Nat) < c10State.cumframes.getLast?.getD 0 ∧
      c10State.cumframes.getLast?.getD 0 < 20 ∧
      (∀ r, 0 < constOracles.work r)) ∧
    (progressThreshold (c10State.cumframes.getLast?.getD 0) = 0 ∧
    (∀ e, progressHit (c10State.cumframes.getLast?.getD 0) e = false) ∧
    ∃ out, predict_landmarks c10State constOracles 0 none = .ok out ∧
      out.1.events = [] ∧
      out.1.iters = c10State.cumframes.getLast?.getD 0 ∧
      (∀ r < c10State.cumframes.getLast?.getD 0, out.1.rows[r]? =
        some (some (rowFor c10State constOracles 0
          ((List.range (c10State.cumframes.getLast?.getD 0)).getD r 0))))) :=
  ⟨⟨by decide, by decide, fun _ => one_pos⟩,
   predict_landmarks_short_video_no_progress c10State constOracles 0 ⟨["kp"]⟩
     rfl (fun _ => rfl) (fun _ => one_pos) (by decide) (by decide)⟩

theorem pose_prediction_setup_noop (s : PoseState) (n : Net)
    (hn : s.net = some n) (hb : s.bbox_set = true) :
    pose_prediction_setup s = .ok s := by
  rw [pose_prediction_setup_eq_body s n hn]
  unfold setupBody
  rw [hb]
  rfl

/-- `run_subset` (pose.py:141-167).  `np.random.choice(self.nframes,
subset_size, replace=False)` is an external RNG call abstracted as the
`choice` oracle; its numpy contract (result length = `subset_size`,
without replacement, values drawn from `range(nframes)`) enters the
theorems as hypotheses.  `np.sort` is ascending sort.  `subset_size =
int(self.nframes / 10)` truncates float division, which agrees with ℕ
division for every representable frame count.  The subset video is always
video 0 (pose.py:160), and the function returns `(pred_data, subset_ind,
self.bbox)`. -/
def run_subset (s : PoseState) (oc : Oracles) (choice : Nat → Nat → List Nat)
    (subset_ind : Option (List Nat)) :
    Except PoseErr ((RunSt × RunMetadata) × List Nat × List Bbox4) :=
  match pose_prediction_setup s with
  | .error e => .error e
  | .ok s2 =>
    let subset := match subset_ind with
      | some l => l
      | none => List.insertionSort (· ≤ ·) (choice s2.nframes (s2.nframes / 10))
    match predict_landmarks s2 oc 0 (some subset) with
    | .error e => .error e
    | .ok pd => .ok (pd, subset, s2.bbox)

/-- C4 (amended): with `subset_ind = None` and `nframes ≥ 10` (so the
subset is nonempty) under positive per-batch inference durations,
`run_subset` selects a strictly ascending, duplicate-free sequence of
length `⌊nframes / 10⌋` with every element in `[0, nframes)`, passes
exactly that sequence to `predict_landmarks`, and returns it to the
caller.  For `0 < nframes < 10` the subset is empty, `total_frames = 0`,
and pose.py:355 raises ZeroDivisionError instead of returning — see the
counterexample below. -/
theorem run_subset_selects (s : PoseState) (oc : Oracles)
    (choice : Nat → Nat → List Nat) (n : Net)
    (hn : s.net = some n) (hb : s.bbox_set = true) (h10 : 10 ≤ s.nframes)
    (hwork : ∀ r, 0 < oc.work r)
    (hlen : (choice s.nframes (s.nframes / 10)).length = s.nframes / 10)
    (hnodup : (choice s.nframes (s.nframes / 10)).Nodup)
    (hmem : ∀ x ∈ choice s.nframes (s.nframes / 10), x < s.nframes)
    (hfetch : ∀ f, oc.fetchFail f = false) :
    ∃ pd, predict_landmarks s oc 0
        (some (List.insertionSort (· ≤ ·)
          (choice s.nframes (s.nframes / 10)))) = .ok pd ∧
      run_subset s oc choice none = .ok
        (pd, List.insertionSort (· ≤ ·) (choice s.nframes (s.nframes / 10)),
          s.bbox) ∧
      List.Sorted (· < ·)
        (List.insertionSort (· ≤ ·) (choice s.nframes (s.nframes / 10))) ∧
      (List.insertionSort (· ≤ ·) (choice s.nframes (s.nframes / 10))).Nodup ∧
      (List.insertionSort (· ≤ ·) (choice s.nframes (s.nframes / 10))).length
        = s.nframes / 10 ∧
      ∀ x ∈ List.insertionSort (· ≤ ·) (choice s.nframes (s.nframes / 10)),
        x < s.nframes := by
  have hperm := List.perm_insertionSort (· ≤ ·) (choice s.nframes (s.nframes / 10))
  have hnd : (List.insertionSort (· ≤ ·)
      (choice s.nframes (s.nframes / 10))).Nodup := hperm.nodup_iff.mpr hnodup
  have hsorted := List.sorted_insertionSort (· ≤ ·)
    (choice s.nframes (s.nframes / 10))
  have hlen2 : (List.insertionSort (· ≤ ·)
      (choice s.nframes (s.nframes / 10))).length = s.nframes / 10 :=
    hperm.length_eq.trans hlen
  have htfpos : 0 < (List.insertionSort (· ≤ ·)
      (choice s.nframes (s.nframes / 10))).length := by
    rw [hlen2]; omega
  have hpos := work_sum_ne_zero oc _ htfpos hwork
  refine ⟨_, predict_landmarks_ok s oc 0 _ n hn hfetch _ _ rfl rfl hpos,
    ?_, hsorted.lt_of_le hnd, hnd, hlen2,
    fun x hx => hmem x (hperm.mem_iff.mp hx)⟩
  unfold run_subset
  rw [pose_prediction_setup_noop s n hn hb]
  simp only []
  rw [predict_landmarks_ok s oc 0
    (some (List.insertionSort (· ≤ ·) (choice s.nframes (s.nframes / 10))))
    n hn hfetch _ _ rfl rfl hpos]

/-- A 25-frame single-video state with preset bbox, for the subset run. -/
def c4State : PoseState :=
  { filenames := ["t.avi"], Ly := [64], Lx := [64], cumframes := [25],
    nframes := 25, bodyparts := ["kp"], bbox := [⟨0, 64, 0, 64⟩],
    bbox_set := true, resize := true, add_padding := false, gui := none,
    finetuned_model := false, net := some ⟨["kp"]⟩ }

/-- The concrete RNG draw used by the C4 witness: 2 = ⌊25 / 10⌋ distinct
values below 25, unsorted. -/
def c4Choice : Nat → Nat → List Nat := fun _ _ => [3, 1]

/-- Witness for `run_subset_selects` at `nframes = 25` with draw [3, 1]. -/
theorem run_subset_selects_witness :
    ((10 : Nat) ≤ c4State.nframes ∧
      (∀ r, 0 < constOracles.work r) ∧
      (c4Choice c4State.nframes (c4State.nframes / 10)).length
        = c4State.nframes / 10 ∧
      (c4Choice c4State.nframes (c4State.nframes / 10)).Nodup ∧
      (∀ x ∈ c4Choice c4State.nframes (c4State.nframes / 10),
        x < c4State.nframes)) ∧
    (∃ pd, predict_landmarks c4State constOracles 0
        (some (List.insertionSort (· ≤ ·)
          (c4Choice c4State.nframes (c4State.nframes / 10)))) = .ok pd ∧
      run_subset c4State constOracles c4Choice none = .ok
        (pd, List.insertionSort (· ≤ ·)
          (c4Choice c4State.nframes (c4State.nframes / 10)), c4State.bbox) ∧
      List.Sorted (· < ·) (List.insertionSort (· ≤ ·)
        (c4Choice c4State.nframes (c4State.nframes / 10))) ∧
      (List.insertionSort (· ≤ ·)
        (c4Choice c4State.nframes (c4State.nframes / 10))).Nodup ∧
      (List.insertionSort (· ≤ ·)
        (c4Choice c4State.nframes (c4State.nframes / 10))).length
          = c4State.nframes / 10 ∧
      ∀ x ∈ List.insertionSort (· ≤ ·)
        (c4Choice c4State.nframes (c4State.nframes / 10)),
        x < c4State.nframes) :=
  ⟨⟨by decide, fun _ => one_pos, by decide, by decide, by decide⟩,
   run_subset_selects c4State constOracles c4Choice ⟨["kp"]⟩ rfl rfl
     (by decide) (fun _ => one_pos) (by decide) (by decide) (by decide)
     (fun _ => rfl)⟩

/-- A 5-frame single-video state with preset bbox: `⌊5 / 10⌋ = 0`, so the
drawn subset is empty. -/
def c4FailState : PoseState :=
  { filenames := ["s.avi"], Ly := [64], Lx := [64], cumframes := [5],
    nframes := 5, bodyparts := ["kp"], bbox := [⟨0, 64, 0, 64⟩],
    bbox_set := true, resize := true, add_padding := false, gui := none,
    finetuned_model := false, net := some ⟨["kp"]⟩ }

/-- C4 counterexample: for `0 < nframes < 10` (here 5) the subset size
`int(nframes / 10)` is 0; the empty draw satisfies numpy's
without-replacement contract, so `predict_landmarks` is called with
`total_frames = 0`, no inference time accrues, and pose.py:355 raises
ZeroDivisionError — `run_subset` never returns. -/
theorem run_subset_small_nframes_raises :
    ((0 : Nat) < c4FailState.nframes ∧ c4FailState.nframes / 10 = 0 ∧
      ([] : List Nat).length = c4FailState.nframes / 10 ∧
      ([] : List Nat).Nodup ∧
      (∀ x ∈ ([] : List Nat), x < c4FailState.nframes)) ∧
    run_subset c4FailState constOracles (fun _ _ => []) none =
      .error PoseErr.zeroDivision := by
  refine ⟨⟨by decide, by decide, by decide, by decide, by decide⟩, ?_⟩
  have hp : predict_landmarks c4FailState constOracles 0
      (some ([] : List Nat)) = .error PoseErr.zeroDivision := by
    simp only [predict_landmarks, show c4FailState.net = some ⟨["kp"]⟩ from rfl,
      List.length_nil]
    rw [batchLoop_ok c4FailState constOracles 0 0
      (fun i => ([] : List Nat).getD i 0) 0 0 _ (by omega)
      (fun i _ h => absurd h (Nat.not_lt_zero i))]
    simp [procList_zero]
  unfold run_subset
  rw [pose_prediction_setup_noop c4FailState ⟨["kp"]⟩ rfl rfl]
  simp only []
  simp only [List.insertionSort]
  rw [hp]

/-! ## write_dataframe (pose.py:229-256) -/

/-- A pandas DataFrame abstraction: MultiIndex column labels
(scorer, bodypart, coord), a row index, and the cell values. -/
structure Table where
  cols : List (String × String × String)
  index : List Nat
  values : List (List ℚ)
  deriving DecidableEq

/-- Channel selector of a keypoint triple: 0 ↦ x, 1 ↦ y, 2 ↦ likelihood. -/
def chan (k : Nat) (t : ℚ × ℚ × ℚ) : ℚ :=
  match k with
  | 0 => t.1
  | 1 => t.2.1
  | _ => t.2.2

/-- `write_dataframe` (pose.py:229-256).  The column block of each
bodypart is built from the MultiIndex product
`[[scorer], [bodypart], ["x", "y", "likelihood"]]` and the blocks are
concatenated in bodypart order; the index is `np.arange(cumframes[-1])`
when `selected_frame_ind is None` and `selected_frame_ind` otherwise; the
strided assignments `iloc[:, ::3] / [:, 1::3] / [:, 2::3] = data[:, :, c]`
put channel `c` of keypoint `j` into column `3j + c`.  Returns `none`
exactly where pandas raises: an empty bodypart list leaves `dataFrame`
unbound (UnboundLocalError), and a shape mismatch between `data` and the
index or the column count makes the strided assignment raise ValueError. -/
def dfIndex (s : PoseState) (selected_frame_ind : Option (List Nat)) : List Nat :=
  match selected_frame_ind with
  | none => List.range (s.cumframes.getLast?.getD 0)
  | some l => l

def write_dataframe (s : PoseState) (data : List (List (ℚ × ℚ × ℚ)))
    (selected_frame_ind : Option (List Nat)) : Option Table :=
  let scorer := "Facemap"
  let bodyparts := s.bodyparts
  let index := dfIndex s selected_frame_ind
  let cols := bodyparts.flatMap (fun b =>
    [(scorer, b, "x"), (scorer, b, "y"), (scorer, b, "likelihood")])
  if bodyparts ≠ [] ∧ data.length = index.length ∧
      ∀ row ∈ data, row.length = bodyparts.length then
    some ⟨cols, index,
      data.map (fun row => (List.range (3 * bodyparts.length)).map
        (fun c => chan (c % 3) (row.getD (c / 3) (0, 0, 0))))⟩
  else none

theorem flatMap3_length (g : String → List (String × String × String))
    (hg : ∀ b, (g b).length = 3) :
    ∀ l : List String, (l.flatMap g).length = 3 * l.length := by
  intro l
  induction l with
  | nil => rfl
  | cons b t ih =>
    rw [List.flatMap_cons, List.length_append, ih, hg b, List.length_cons]
    ring

/-- One of three generated column labels, by channel. -/
def chan3 (g1 g2 g3 : String → String × String × String)
    (b : String) (k : Nat) : String × String × String :=
  match k with
  | 0 => g1 b
  | 1 => g2 b
  | _ => g3 b

theorem flatMap3_get (g1 g2 g3 : String → String × String × String) :
    ∀ (l : List String) (j k : Nat), j < l.length → k < 3 →
      (l.flatMap (fun b => [g1 b, g2 b, g3 b]))[3 * j + k]? =
        some (chan3 g1 g2 g3 (l.getD j "") k) := by
  intro l
  induction l with
  | nil =>
    intro j k hj _
    simp at hj
  | cons b t ih =>
    intro j k hj hk
    rw [List.flatMap_cons]
    cases j with
    | zero =>
      interval_cases k <;> simp [chan3, List.cons_append]
    | succ j2 =>
      have h3 : 3 * (j2 + 1) + k = (3 * j2 + k) + 1 + 1 + 1 := by ring
      rw [h3]
      show (g1 b :: g2 b :: g3 b :: t.flatMap _)[3 * j2 + k + 1 + 1 + 1]? = _
      rw [List.getElem?_cons_succ, List.getElem?_cons_succ,
        List.getElem?_cons_succ]
      rw [ih j2 k (by simpa using hj) hk]
      rfl

/-- C5: for an N×K prediction array, `write_dataframe` produces a table
with exactly 3K columns and N rows; the three columns of keypoint j sit
adjacent at 3j, 3j+1, 3j+2 in the fixed order (x, y, likelihood), ordered
by keypoint; cell (r, 3j+k) holds channel k of keypoint j at frame r; the
rows are labeled 0..N-1 when `selected_frame_ind` is None (the strided
pandas assignment forces N = cumframes[-1] there) and exactly by
`selected_frame_ind` otherwise. -/
theorem write_dataframe_shape (s : PoseState) (data : List (List (ℚ × ℚ × ℚ)))
    (sel : Option (List Nat)) (N K : Nat)
    (hK : s.bodyparts.length = K) (hK0 : 0 < K) (hN : data.length = N)
    (hrow : ∀ row ∈ data, row.length = K)
    (hidx : (dfIndex s sel).length = N) :
    ∃ t, write_dataframe s data sel = some t ∧
      t.cols.length = 3 * K ∧
      t.values.length = N ∧
      (∀ row ∈ t.values, row.length = 3 * K) ∧
      (∀ j < K,
        t.cols[3 * j]? = some ("Facemap", s.bodyparts.getD j "", "x") ∧
        t.cols[3 * j + 1]? = some ("Facemap", s.bodyparts.getD j "", "y") ∧
        t.cols[3 * j + 2]? =
          some ("Facemap", s.bodyparts.getD j "", "likelihood")) ∧
      (∀ r < N, ∀ j < K, ∀ k < 3,
        (t.values.getD r []).getD (3 * j + k) 0 =
          chan k ((data.getD r []).getD j (0, 0, 0))) ∧
      (sel = none → t.index = List.range N) ∧
      (∀ l, sel = some l → t.index = l) := by
  have hbp : s.bodyparts ≠ [] := by
    intro h
    rw [h] at hK
    simp at hK
    omega
  have hcond : s.bodyparts ≠ [] ∧ data.length = (dfIndex s sel).length ∧
      ∀ row ∈ data, row.length = s.bodyparts.length :=
    ⟨hbp, by rw [hN, hidx], fun row hr => by rw [hrow row hr, hK]⟩
  refine ⟨⟨s.bodyparts.flatMap (fun b =>
      [("Facemap", b, "x"), ("Facemap", b, "y"), ("Facemap", b, "likelihood")]),
    dfIndex s sel,
    data.map (fun row => (List.range (3 * s.bodyparts.length)).map
      (fun c => chan (c % 3) (row.getD (c / 3) (0, 0, 0))))⟩,
    ?_, ?_, ?_, ?_, ?_, ?_, ?_, ?_⟩
  · simp only [write_dataframe]
    rw [if_pos hcond]
  · show (s.bodyparts.flatMap _).length = 3 * K
    rw [flatMap3_length (fun b => [("Facemap", b, "x"), ("Facemap", b, "y"),
      ("Facemap", b, "likelihood")]) (fun b => rfl), hK]
  · show (data.map _).length = N
    rw [List.length_map, hN]
  · intro row hr
    obtain ⟨row0, -, hrow0⟩ := List.mem_map.mp hr
    rw [← hrow0, List.length_map, List.length_range, hK]
  · intro j hj
    have hj2 : j < s.bodyparts.length := by omega
    refine ⟨?_, ?_, ?_⟩
    · have h := flatMap3_get (fun b => ("Facemap", b, "x"))
        (fun b => ("Facemap", b, "y")) (fun b => ("Facemap", b, "likelihood"))
        s.bodyparts j 0 hj2 (by omega)
      simpa [chan3] using h
    · have h := flatMap3_get (fun b => ("Facemap", b, "x"))
        (fun b => ("Facemap", b, "y")) (fun b => ("Facemap", b, "likelihood"))
        s.bodyparts j 1 hj2 (by omega)
      simpa [chan3] using h
    · have h := flatMap3_get (fun b => ("Facemap", b, "x"))
        (fun b => ("Facemap", b, "y")) (fun b => ("Facemap", b, "likelihood"))
        s.bodyparts j 2 hj2 (by omega)
      simpa [chan3] using h
  · intro r hr j hj k hk
    have hrd : r < data.length := by omega
    have hd : data.getD r [] = data[r] := by
      rw [List.getD_eq_getElem?_getD, List.getElem?_eq_getElem hrd]
      rfl
    have hv : (data.map (fun row => (List.range (3 * s.bodyparts.length)).map
          (fun c => chan (c % 3) (row.getD (c / 3) (0, 0, 0))))).getD r [] =
        (List.range (3 * s.bodyparts.length)).map
          (fun c => chan (c % 3) ((data.getD r []).getD (c / 3) (0, 0, 0))) := by
      rw [List.getD_eq_getElem?_getD, List.getElem?_map,
        List.getElem?_eq_getElem hrd, hd]
      rfl
    show ((data.map _).getD r []).getD (3 * j + k) 0 = _
    rw [hv, getD_map_range _ _ _ (by omega)]
    have hmod : (3 * j + k) % 3 = k := by omega
    have hdiv : (3 * j + k) / 3 = j := by omega
    rw [hmod, hdiv]
  · intro hsel
    subst hsel
    have hcl : s.cumframes.getLast?.getD 0 = N := by
      simpa [dfIndex] using hidx
    show dfIndex s none = List.range N
    unfold dfIndex
    rw [hcl]
  · intro l hsel
    subst hsel
    rfl

/-- A one-keypoint, two-frame state for exercising the table writer. -/
def c5State : PoseState :=
  { filenames := ["w.avi"], Ly := [64], Lx := [64], cumframes := [2],
    nframes := 2, bodyparts := ["snout"], bbox := [⟨0, 64, 0, 64⟩],
    bbox_set := true, resize := true, add_padding := false, gui := none,
    finetuned_model := false, net := some ⟨["snout"]⟩ }

/-- Witness for `write_dataframe_shape`: N = 2 frames, K = 1 keypoint. -/
theorem write_dataframe_shape_witness :
    (c5State.bodyparts.length = 1 ∧ (0 : Nat) < 1 ∧
      ([[((1 : ℚ), 2, 3)], [((4 : ℚ), 5, 6)]]).length = 2) ∧
    (∃ t, write_dataframe c5State [[(1, 2, 3)], [(4, 5, 6)]] none = some t ∧
      t.cols.length = 3 * 1 ∧
      t.values.length = 2 ∧
      (∀ row ∈ t.values, row.length = 3 * 1) ∧
      (∀ j < 1,
        t.cols[3 * j]? = some ("Facemap", c5State.bodyparts.getD j "", "x") ∧
        t.cols[3 * j + 1]? =
          some ("Facemap", c5State.bodyparts.getD j "", "y") ∧
        t.cols[3 * j + 2]? =
          some ("Facemap", c5State.bodyparts.getD j "", "likelihood")) ∧
      (∀ r < 2, ∀ j < 1, ∀ k < 3,
        (t.values.getD r []).getD (3 * j + k) 0 =
          chan k ((([[((1 : ℚ), 2, 3)], [((4 : ℚ), 5, 6)]]).getD r []).getD j
            (0, 0, 0))) ∧
      ((none : Option (List Nat)) = none → t.index = List.range 2) ∧
      (∀ l, (none : Option (List Nat)) = some l → t.index = l)) :=
  ⟨⟨rfl, by omega, rfl⟩,
   write_dataframe_shape c5State [[(1, 2, 3)], [(4, 5, 6)]] none 2 1 rfl
     (by omega) rfl (by simp) rfl⟩

/-! ## File paths and persistence (pose.py:368-384, 85-129)

`os.path.split` / `os.path.splitext` / `os.path.join` are embedded on the
character-list level following CPython's posixpath semantics. -/

/-- `os.path.split` on the character list: split at the last slash; the
head drops trailing slashes unless it consists only of slashes. -/
def psplitCore (l : List Char) : List Char × List Char :=
  let r := l.reverse
  let tailRev := r.takeWhile (fun c => c != '/')
  let headRev := r.dropWhile (fun c => c != '/')
  let headStripped := headRev.dropWhile (fun c => c == '/')
  ((if headStripped = [] then headRev else headStripped).reverse,
   tailRev.reverse)

/-- `os.path.split`. -/
def psplit (p : String) : String × String :=
  (⟨(psplitCore p.data).1⟩, ⟨(psplitCore p.data).2⟩)

/-- `os.path.splitext` on the character list: the extension starts at the
last dot, provided no slash follows it and the final component has a
non-dot character before it (dotfiles carry no extension). -/
def splitextCore (l : List Char) : List Char × List Char :=
  let r := l.reverse
  let extRev := r.takeWhile (fun c => c != '.' && c != '/')
  match r.dropWhile (fun c => c != '.' && c != '/') with
  | '.' :: restRev =>
    if (restRev.takeWhile (fun c => c != '/')).any (fun c => c != '.') then
      (restRev.reverse, '.' :: extRev.reverse)
    else (l, [])
  | _ => (l, [])

/-- `os.path.splitext`. -/
def splitext (p : String) : String × String :=
  (⟨(splitextCore p.data).1⟩, ⟨(splitextCore p.data).2⟩)

/-- `os.path.join` of two components. -/
def pjoin (a b : String) : String :=
  if b.data.head? = some '/' then b
  else if a = "" then b
  else if a.data.getLast? = some '/' then a ++ b
  else a ++ "/" ++ b

theorem splitextCore_pose (q : List Char) :
    splitextCore (q ++ "_FacemapPose.h5".data) =
      (q ++ "_FacemapPose".data, ".h5".data) := by
  have h1 : (q ++ "_FacemapPose.h5".data).reverse =
      '5' :: 'h' :: '.' :: ("_FacemapPose".data.reverse ++ q.reverse) := by
    rw [List.reverse_append]
    rfl
  simp only [splitextCore]
  rw [h1]
  show (("_FacemapPose".data.reverse ++ q.reverse).reverse, ['.', 'h', '5']) =
    (q ++ "_FacemapPose".data, ".h5".data)
  rw [List.reverse_append, List.reverse_reverse]
  rfl

theorem splitextCore_poseFinetuned (q : List Char) :
    splitextCore (q ++ "_FacemapPoseFinetuned.h5".data) =
      (q ++ "_FacemapPoseFinetuned".data, ".h5".data) := by
  have h1 : (q ++ "_FacemapPoseFinetuned.h5".data).reverse =
      '5' :: 'h' :: '.' :: ("_FacemapPoseFinetuned".data.reverse ++ q.reverse) := by
    rw [List.reverse_append]
    rfl
  simp only [splitextCore]
  rw [h1]
  show (("_FacemapPoseFinetuned".data.reverse ++ q.reverse).reverse,
    ['.', 'h', '5']) = (q ++ "_FacemapPoseFinetuned".data, ".h5".data)
  rw [List.reverse_append, List.reverse_reverse]
  rfl

theorem splitext_append_pose (q : String) :
    splitext (q ++ "_FacemapPose.h5") = (q ++ "_FacemapPose", ".h5") := by
  unfold splitext
  rw [String.data_append, splitextCore_pose]
  exact Prod.ext (String.ext (String.data_append q "_FacemapPose").symm) rfl

theorem splitext_append_poseFinetuned (q : String) :
    splitext (q ++ "_FacemapPoseFinetuned.h5") =
      (q ++ "_FacemapPoseFinetuned", ".h5") := by
  unfold splitext
  rw [String.data_append, splitextCore_poseFinetuned]
  exact Prod.ext
    (String.ext (String.data_append q "_FacemapPoseFinetuned").symm) rfl

theorem pjoin_normal (a b : String) (hb : b.data.head? ≠ some '/')
    (ha : a ≠ "") (ha2 : a.data.getLast? ≠ some '/') :
    pjoin a b = a ++ "/" ++ b := by
  unfold pjoin
  rw [if_neg hb, if_neg ha, if_neg ha2]

/-- The provenance-tagged table filename suffix (pose.py:377-382). -/
def poseSuffix (finetuned : Bool) : String :=
  if finetuned then "_FacemapPoseFinetuned.h5" else "_FacemapPose.h5"

/-- The table path of `save_pose_prediction` (pose.py:368-384): output
directory from the GUI's `save_path` when a GUI is attached, else the
video's own directory; filename is the video basename plus the
provenance-tagged suffix.  The table itself is written at pose.py:383
under the fixed key "df_with_missing" with mode "w". -/
def save_pose_prediction_path (s : PoseState) (video_id : Nat) : String :=
  let file := s.filenames.getD video_id ""
  let basename := match s.gui with
    | some g => g.save_path
    | none => (psplit file).1
  let videoname := (splitext (psplit file).2).1
  pjoin basename (videoname ++ poseSuffix s.finetuned_model)

/-- The metadata pickle path of `run_all` (pose.py:107-113): the table
path with its extension replaced by the provenance-tagged metadata
suffix. -/
def metadata_path (s : PoseState) (savepath : String) : String :=
  if s.finetuned_model then
    (splitext savepath).1 ++ "_FacemapFinetuned_metadata.pkl"
  else
    (splitext savepath).1 ++ "_Facemap_metadata.pkl"

/-- A persisted artifact: the HDF table under its fixed key, or the
pickled metadata record. -/
inductive FileContent where
  | table (key : String) (t : Table)
  | meta (m : RunMetadata)
  deriving DecidableEq

/-- One iteration of `run_all`'s per-video loop (pose.py:90-117): predict,
build the dataframe from `pred_data`, save the table, then pickle the
metadata next to it.  Returns this video's two file writes in order, or
propagates the exception.  GUI refreshes (`update_gui_pose`,
pose.py:116-117) only run with a GUI host and are external no-ops. -/
def runVideo (s : PoseState) (oc : Oracles) (video_id : Nat) :
    Except PoseErr (List (String × FileContent)) :=
  match predict_landmarks s oc video_id none with
  | .error e => .error e
  | .ok (st, metadata) =>
    match write_dataframe s (st.rows.map (fun o => o.getD [])) none with
    | none => .error .valueError
    | some df =>
      let savepath := save_pose_prediction_path s video_id
      .ok [(savepath, .table "df_with_missing" df),
           (metadata_path s savepath, .meta metadata)]

/-- The video loop of `run_all` (pose.py:90-117), with the list of
persisted files as the filesystem trace: it survives a failure, which
stops the loop and is reported alongside. -/
def run_allGo (s : PoseState) (ocAt : Nat → Oracles) (vid : Nat)
    (fs : List (String × FileContent)) :
    List (String × FileContent) × Option PoseErr :=
  if h : vid < s.filenames.length then
    match runVideo s (ocAt vid) vid with
    | .error e => (fs, some e)
    | .ok w => run_allGo s ocAt (vid + 1) (fs ++ w)
  else (fs, none)
termination_by s.filenames.length - vid
decreasing_by omega

/-- `run_all` (pose.py:85-129): setup once, then every video in order. -/
def run_all (s : PoseState) (ocAt : Nat → Oracles) :
    List (String × FileContent) × Option PoseErr :=
  match pose_prediction_setup s with
  | .error e => ([], some e)
  | .ok s2 => run_allGo s2 ocAt 0 []

theorem batchLoop_err_first (s : PoseState) (oc : Oracles) (vid tf : Nat)
    (frameAt : Nat → Nat) (start : Nat) (st : RunSt) (h : start < tf)
    (hf : oc.fetchFail (frameAt start) = true) :
    batchLoop s oc vid tf frameAt start st =
      .error (.fetch ⟨vid, frameAt start⟩) := by
  unfold batchLoop
  rw [dif_pos h]
  simp only [hf, if_true]

theorem batchLoop_error_video (s : PoseState) (oc : Oracles) (vid tf : Nat)
    (frameAt : Nat → Nat) :
    ∀ k start st fe, tf - start = k →
      batchLoop s oc vid tf frameAt start st = .error (.fetch fe) →
      fe.video = vid := by
  intro k
  induction k with
  | zero =>
    intro start st fe h herr
    unfold batchLoop at herr
    rw [dif_neg (by omega)] at herr
    simp at herr
  | succ k ih =>
    intro start st fe h herr
    unfold batchLoop at herr
    rw [dif_pos (by omega)] at herr
    by_cases hf : oc.fetchFail (frameAt start) = true
    · simp only [hf, if_true, Except.error.injEq, PoseErr.fetch.injEq] at herr
      rw [← herr]
    · simp only [Bool.not_eq_true] at hf
      simp only [hf, Bool.false_eq_true, if_false] at herr
      exact ih (start + 1) _ fe (by omega) herr

theorem predict_landmarks_fetch_video (s : PoseState) (oc : Oracles)
    (vid : Nat) (fi : Option (List Nat)) (fe : FetchErr)
    (h : predict_landmarks s oc vid fi = .error (.fetch fe)) :
    fe.video = vid := by
  unfold predict_landmarks at h
  cases hn : s.net with
  | none =>
    rw [hn] at h
    simp at h
  | some n =>
    rw [hn] at h
    simp only [] at h
    split at h
    · rename_i e he
      injection h with h2
      subst h2
      exact batchLoop_error_video s oc vid _ _ _ 0 _ fe rfl he
    · split at h <;> simp at h

theorem runVideo_fetch_video (s : PoseState) (oc : Oracles) (vid : Nat)
    (fe : FetchErr) (h : runVideo s oc vid = .error (.fetch fe)) :
    fe.video = vid := by
  unfold runVideo at h
  split at h
  · rename_i e he
    injection h with h2
    subst h2
    exact predict_landmarks_fetch_video s oc vid none fe he
  · split at h
    · injection h with h2
      cases h2
    · simp at h

theorem run_allGo_spec (s : PoseState) (ocAt : Nat → Oracles)
    (i : Nat) (w : Nat → List (String × FileContent)) (err : PoseErr)
    (hi : i < s.filenames.length)
    (hok : ∀ j < i, runVideo s (ocAt j) j = .ok (w j))
    (herr : runVideo s (ocAt i) i = .error err) :
    ∀ k v fs, i - v = k → v ≤ i →
      run_allGo s ocAt v fs =
        (fs ++ (List.range' v (i - v)).flatMap w, some err) := by
  intro k
  induction k with
  | zero =>
    intro v fs h hv
    have hvi : v = i := by omega
    subst hvi
    unfold run_allGo
    rw [dif_pos hi, herr]
    simp [h]
  | succ k ih =>
    intro v fs h hv
    have hvlt : v < i := by omega
    unfold run_allGo
    rw [dif_pos (by omega), hok v hvlt]
    simp only []
    rw [ih (v + 1) (fs ++ w v) (by omega) (by omega)]
    have h2 : i - v = (i - (v + 1)) + 1 := by omega
    rw [h2, List.range'_succ, List.flatMap_cons, List.append_assoc]

/-- C6: `run_all` persists each video's table and metadata before moving
to the next video; if predicting video i raises (a frame-fetch failure),
the filesystem trace holds exactly the files of videos j < i, written as
by their own successful runs, the error is not swallowed but is reported
to the caller, and the surfaced FrameFetchError identifies the failing
video. -/
theorem run_all_partial_failure (s : PoseState) (ocAt : Nat → Oracles)
    (n : Net) (i : Nat) (w : Nat → List (String × FileContent))
    (fe : FetchErr) (hn : s.net = some n) (hb : s.bbox_set = true)
    (hi : i < s.filenames.length)
    (hok : ∀ j < i, runVideo s (ocAt j) j = .ok (w j))
    (herr : runVideo s (ocAt i) i = .error (.fetch fe)) :
    run_all s ocAt = ((List.range i).flatMap w, some (.fetch fe)) ∧
    fe.video = i := by
  constructor
  · unfold run_all
    rw [pose_prediction_setup_noop s n hn hb]
    simp only []
    rw [run_allGo_spec s ocAt i w _ hi hok herr i 0 [] (by omega) (by omega)]
    rw [Nat.sub_zero, List.nil_append, ← List.range_eq_range']
  · exact runVideo_fetch_video s (ocAt i) i fe herr

theorem predict_landmarks_first_fetch_err (s : PoseState) (oc : Oracles)
    (vid : Nat) (n : Net) (hn : s.net = some n)
    (h0 : 0 < s.cumframes.getLast?.getD 0)
    (hf : oc.fetchFail
      ((List.range (s.cumframes.getLast?.getD 0)).getD 0 0) = true) :
    predict_landmarks s oc vid none =
      .error (.fetch ⟨vid,
        (List.range (s.cumframes.getLast?.getD 0)).getD 0 0⟩) := by
  simp only [predict_landmarks, hn]
  rw [batchLoop_err_first s oc vid (s.cumframes.getLast?.getD 0)
    (fun i => (List.range (s.cumframes.getLast?.getD 0)).getD i 0) 0 _ h0 hf]

/-- A two-video state with preset bounding boxes, for the partial-failure
run. -/
def c6State : PoseState :=
  { filenames := ["m1.avi", "m2.avi"], Ly := [64, 64], Lx := [64, 64],
    cumframes := [2], nframes := 2, bodyparts := ["kp"],
    bbox := [⟨0, 64, 0, 64⟩, ⟨0, 64, 0, 64⟩], bbox_set := true,
    resize := true, add_padding := false, gui := none,
    finetuned_model := false, net := some ⟨["kp"]⟩ }

/-- Oracles whose frame decoding always fails. -/
def failOracles : Oracles :=
  ⟨fun _ => [((10 : ℚ), 20, 1)], fun _ => true, fun _ => 1⟩

/-- Witness for `run_all_partial_failure`: the first video's first frame
fails to decode, the error surfaces naming video 0, and nothing is
persisted. -/
theorem run_all_partial_failure_witness :
    (c6State.net = some ⟨["kp"]⟩ ∧ c6State.bbox_set = true ∧
      (0 : Nat) < c6State.filenames.length) ∧
    (run_all c6State (fun _ => failOracles) =
      ((List.range 0).flatMap (fun _ => ([] : List (String × FileContent))),
       some (.fetch ⟨0, 0⟩)) ∧
     (FetchErr.mk 0 0).video = 0) :=
  ⟨⟨rfl, rfl, by decide⟩,
   run_all_partial_failure c6State (fun _ => failOracles) ⟨["kp"]⟩ 0
     (fun _ => []) ⟨0, 0⟩ rfl rfl (by decide)
     (fun j hj => absurd hj (Nat.not_lt_zero j))
     (by
       unfold runVideo
       rw [predict_landmarks_first_fetch_err c6State failOracles 0 ⟨["kp"]⟩
         rfl (by decide) rfl]
       rfl)⟩

/-- C7: for every video, the table is saved to
`{directory}/{video_basename}_FacemapPose.h5` when `finetuned_model` is
false and `..._FacemapPoseFinetuned.h5` when it is true, under the fixed
table key "df_with_missing"; `run_all` writes the metadata record to the
table path with its `.h5` extension replaced by `_Facemap_metadata.pkl`
(respectively `_FacemapFinetuned_metadata.pkl`).  Both filenames branch on
the same `finetuned_model` field, so the provenance tags always agree.
The directory is the GUI's save path when a GUI is attached and the
video's own directory otherwise; the hypotheses state the normal
`os.path.join` situation (nonempty directory without trailing slash,
relative filename). -/
theorem save_paths_provenance (s : PoseState) (oc : Oracles)
    (video_id : Nat) (dir vname : String)
    (hdir : dir = match s.gui with
      | some g => g.save_path
      | none => (psplit (s.filenames.getD video_id "")).1)
    (hv : vname = (splitext (psplit (s.filenames.getD video_id "")).2).1)
    (hb : (vname ++ poseSuffix s.finetuned_model).data.head? ≠ some '/')
    (ha : dir ≠ "") (ha2 : dir.data.getLast? ≠ some '/') :
    save_pose_prediction_path s video_id =
      dir ++ "/" ++ vname ++ poseSuffix s.finetuned_model ∧
    metadata_path s (save_pose_prediction_path s video_id) =
      dir ++ "/" ++ vname ++
        (if s.finetuned_model then "_FacemapPoseFinetuned"
          else "_FacemapPose") ++
        (if s.finetuned_model then "_FacemapFinetuned_metadata.pkl"
          else "_Facemap_metadata.pkl") ∧
    (∀ w, runVideo s oc video_id = .ok w → ∃ df m,
      w = [(save_pose_prediction_path s video_id,
              FileContent.table "df_with_missing" df),
           (metadata_path s (save_pose_prediction_path s video_id),
              FileContent.meta m)]) := by
  have hsp : save_pose_prediction_path s video_id =
      dir ++ "/" ++ vname ++ poseSuffix s.finetuned_model := by
    simp only [save_pose_prediction_path]
    rw [← hdir, ← hv, pjoin_normal dir _ hb ha ha2]
    simp [String.append_assoc]
  refine ⟨hsp, ?_, ?_⟩
  · rw [hsp]
    unfold metadata_path poseSuffix
    cases hf : s.finetuned_model with
    | false =>
      simp only [Bool.false_eq_true, if_false]
      rw [show dir ++ "/" ++ vname ++ "_FacemapPose.h5" =
        (dir ++ "/" ++ vname) ++ "_FacemapPose.h5" from rfl]
      rw [splitext_append_pose]
    | true =>
      simp only [if_true]
      rw [show dir ++ "/" ++ vname ++ "_FacemapPoseFinetuned.h5" =
        (dir ++ "/" ++ vname) ++ "_FacemapPoseFinetuned.h5" from rfl]
      rw [splitext_append_poseFinetuned]
  · intro w hw
    unfold runVideo at hw
    split at hw
    · cases hw
    · split at hw
      · cases hw
      · rename_i st df hdf
        injection hw with hw2
        exact ⟨df, _, hw2.symm⟩

/-- A single-video, headless state whose outputs land next to the video. -/
def c7State : PoseState :=
  { filenames := ["/data/vids/mouse.avi"], Ly := [64], Lx := [64],
    cumframes := [2], nframes := 2, bodyparts := ["kp"],
    bbox := [⟨0, 64, 0, 64⟩], bbox_set := true, resize := true,
    add_padding := false, gui := none, finetuned_model := false,
    net := some ⟨["kp"]⟩ }

/-- Witness for `save_paths_provenance`: the pretrained-model paths for
`/data/vids/mouse.avi`. -/
theorem save_paths_provenance_witness :
    (("/data/vids" : String) ≠ "" ∧
      ("mouse" ++ poseSuffix c7State.finetuned_model).data.head? ≠ some '/' ∧
      ("/data/vids" : String).data.getLast? ≠ some '/') ∧
    (save_pose_prediction_path c7State 0 =
        "/data/vids" ++ "/" ++ "mouse" ++ poseSuffix c7State.finetuned_model ∧
     metadata_path c7State (save_pose_prediction_path c7State 0) =
        "/data/vids" ++ "/" ++ "mouse" ++
          (if c7State.finetuned_model then "_FacemapPoseFinetuned"
            else "_FacemapPose") ++
          (if c7State.finetuned_model then "_FacemapFinetuned_metadata.pkl"
            else "_Facemap_metadata.pkl") ∧
     (∀ w, runVideo c7State constOracles 0 = .ok w → ∃ df m,
       w = [(save_pose_prediction_path c7State 0,
               FileContent.table "df_with_missing" df),
            (metadata_path c7State (save_pose_prediction_path c7State 0),
               FileContent.meta m)])) :=
  ⟨⟨by decide, by decide, by decide⟩,
   save_paths_provenance c7State constOracles 0 "/data/vids" "mouse" rfl rfl
     (by decide) (by decide) (by decide)⟩

end Facemap
